import Mathlib

/-!
Verification of the poll/event reconciliation engine and the fan controller of
the `aiohubspace` library.

The definitions below are a shallow embedding of the Python sources:
  * `src/aiohubspace/util.py` (ordered-list / percentage conversions),
  * `src/aiohubspace/device.py` (device snapshots),
  * `src/aiohubspace/v1/controllers/event.py` (`EventStream`),
  * `src/aiohubspace/v1/__init__.py` (`HubSpaceBridgeV1.add_device` /
    `remove_device`, registry `_known_devs`),
  * `src/aiohubspace/v1/controllers/fan.py` (`FanController`).

Python `int` values appearing here are always non-negative (list positions and
percentages computed by floor division of products of non-negative numbers), so
they are embedded as `Nat`; `//` becomes `Nat` division.  Fallible Python code
(`raise`) is embedded with `Except String`.  Python `set`s of strings are
embedded as duplicate-free `List String` (insertion adds at the tail when the
element is absent, mirroring `set.add` up to iteration order).
-/

/-- `util.ordered_list_item_to_percentage`: raise `ValueError` when `item` is
not an element of `ordered_list`; otherwise return
`(ordered_list.index(item) + 1) * 100 // len(ordered_list)` where `index` is
the first index of `item`. -/
def ordered_list_item_to_percentage {α : Type} [DecidableEq α] (ordered_list : List α)
    (item : α) : Except String Nat :=
  if item ∈ ordered_list then
    Except.ok (((ordered_list.indexOf item + 1) * 100) / ordered_list.length)
  else
    Except.error "ValueError: the item is not in the list"

/-- Loop of `util.percentage_to_ordered_list_item`: walk the list keeping the
1-based position `pos`; return the first element whose upper bound
`pos * 100 // list_len` is at least `percentage`. -/
def percentage_to_ordered_list_item_loop {α : Type} (list_len percentage : Nat) :
    Nat → List α → Option α
  | _, [] => none
  | pos, speed :: rest =>
    if percentage ≤ (pos * 100) / list_len then some speed
    else percentage_to_ordered_list_item_loop list_len percentage (pos + 1) rest

/-- `util.percentage_to_ordered_list_item`: raise on the empty list, otherwise
return the first item whose bucket upper bound reaches `percentage`, falling
back to the last item. -/
def percentage_to_ordered_list_item {α : Type} (ordered_list : List α)
    (percentage : Nat) : Except String α :=
  match ordered_list with
  | [] => Except.error "ValueError: The ordered list is empty"
  | x :: xs =>
    match percentage_to_ordered_list_item_loop (x :: xs).length percentage 1 (x :: xs) with
    | some y => Except.ok y
    | none => Except.ok ((x :: xs).getLast (List.cons_ne_nil x xs))

/-! ## Device snapshots (`device.py`) -/

/-- Dynamically typed Python value stored in a device state's `value` slot:
the states used by the fan controller carry strings (`"on"`, `"forward"`,
`"enabled"`, speed names) or booleans (for `available`). -/
inductive HSValue : Type
  | s (v : String)
  | b (v : Bool)
deriving DecidableEq

/-- `device.HubspaceState` (only the slots the claims exercise;
`lastUpdateTime` is carried but never read by the embedded code). -/
structure HubspaceState where
  functionClass : String
  value : HSValue
  lastUpdateTime : Option Nat := none
  functionInstance : Option String := none
deriving DecidableEq

/-- One entry of `HubspaceDevice.functions`.  In the source this is a raw dict;
the embedded code reads its `functionClass`, `functionInstance` and the `name`
of each member of `values`, so only those are kept (`values` is the list of
value names). -/
structure HSFunction where
  functionClass : String
  functionInstance : Option String := none
  values : List String := []
deriving DecidableEq

/-- `device.HubspaceDevice` after `__post_init__` fix-ups (the fix-ups rewrite
`model`/`device_class` and are not exercised by the claims, so devices are
embedded directly in their fixed-up form). -/
structure HubspaceDevice where
  id : String
  device_id : String := ""
  model : String := ""
  device_class : String
  default_name : String := ""
  default_image : String := ""
  friendly_name : String := ""
  functions : List HSFunction := []
  states : List HubspaceState := []
  children : List String := []
  manufacturerName : Option String := none
deriving DecidableEq

/-- `device.get_function_from_device`: first function whose class and instance
both match, `None` when there is none. -/
def get_function_from_device (hs_device : HubspaceDevice) (function_class : String)
    (function_instance : Option String) : Option HSFunction :=
  hs_device.functions.find? fun f =>
    f.functionClass == function_class && f.functionInstance == function_instance

/-! ## Event stream (`v1/controllers/event.py`) -/

/-- `event.EventStreamStatus`. -/
inductive EventStreamStatus : Type
  | connecting
  | connected
  | disconnected
deriving DecidableEq

/-- `event.EventType`. -/
inductive EventType : Type
  | resource_added
  | resource_updated
  | resource_deleted
  | connected
  | disconnected
  | reconnected
deriving DecidableEq

/-- `event.HubSpaceEvent`: queued/emitted event payload.  `device` is the
optional `NotRequired` slot. -/
structure HubSpaceEvent where
  type : EventType
  device_id : String
  device : Option HubspaceDevice := none
deriving DecidableEq

/-- `HubSpaceBridgeV1.add_device`: `self._known_devs.add(device_id)`.  The
registry set is embedded as a duplicate-free list; adding an element already
present is a no-op. -/
def add_device (known_devs : List String) (device_id : String) : List String :=
  if device_id ∈ known_devs then known_devs else known_devs ++ [device_id]

/-- Accumulator of the classification loop in `EventStream.__event_reader`:
the registry (`bridge._known_devs`), `processed_ids`, `skipped_ids` and the
events queued so far. -/
structure ClassifyState where
  tracked : List String
  processed_ids : List String
  skipped_ids : List String
  queue : List HubSpaceEvent
deriving DecidableEq

/-- The `for dev in data` loop of `EventStream.__event_reader`: a device whose
id is unknown is classified `RESOURCE_ADDED` and inserted into the registry at
once, otherwise `RESOURCE_UPDATED`; a device whose class is not tracked is then
recorded in `skipped_ids` without queueing, all other devices are queued and
recorded in `processed_ids`. -/
def classify_loop (tracked_device_classes : List String) :
    ClassifyState → List HubspaceDevice → ClassifyState
  | st, [] => st
  | st, hs_dev :: rest =>
    let event_type :=
      if hs_dev.id ∈ st.tracked then EventType.resource_updated
      else EventType.resource_added
    let tracked :=
      if hs_dev.id ∈ st.tracked then st.tracked else add_device st.tracked hs_dev.id
    if hs_dev.device_class ∉ tracked_device_classes then
      classify_loop tracked_device_classes
        { st with tracked := tracked, skipped_ids := st.skipped_ids ++ [hs_dev.id] } rest
    else
      classify_loop tracked_device_classes
        { st with
          tracked := tracked
          queue := st.queue ++
            [{ type := event_type, device_id := hs_dev.id, device := some hs_dev }]
          processed_ids := st.processed_ids ++ [hs_dev.id] } rest

/-- The `for dev_id in self._bridge.tracked_devices` sweep of
`EventStream.__event_reader`: each tracked id missing from
`processed_ids + skipped_ids` is to be queued as `RESOURCE_DELETED` and removed
from the registry (`HubSpaceBridgeV1.remove_device`).  The source iterates the
live `_known_devs` set while `remove_device` mutates it: CPython's set iterator
raises `RuntimeError` ("Set changed size during iteration") on the step
following a removal — its size check precedes the exhaustion check, so the
error fires even when the removed id was the last element.  The sweep
therefore walks the registry (iteration order modelled as insertion order)
past the processed/skipped ids, queues and removes the first stale id only,
and then dies; the returned flag records whether the `RuntimeError` escaped
(it is raised from the `try` statement's `else:` clause, which no `except` arm
covers). -/
def deletion_sweep (processed_and_skipped : List String) :
    List String → List HubSpaceEvent → List String
      → List String × List HubSpaceEvent × Bool
  | tracked, queue, [] => (tracked, queue, false)
  | tracked, queue, dev_id :: rest =>
    if dev_id ∉ processed_and_skipped then
      (tracked.erase dev_id,
       queue ++ [{ type := EventType.resource_deleted, device_id := dev_id }],
       true)
    else
      deletion_sweep processed_and_skipped tracked queue rest

/-- Result of one poll body: the registry after the poll, the events queued by
it in queueing order, and whether the deletion sweep died with the uncaught
`RuntimeError` from mutating the registry set during iteration. -/
structure PollResult where
  tracked : List String
  queue : List HubSpaceEvent
  crashed : Bool
deriving DecidableEq

/-- One iteration body of `EventStream.__event_reader` whose fetch succeeded:
classify all fetched devices, then sweep the registry for deletions (killing
the task after the first deletion, see `deletion_sweep`). -/
def process_poll (tracked tracked_device_classes : List String)
    (data : List HubspaceDevice) : PollResult :=
  let st := classify_loop tracked_device_classes
    { tracked := tracked, processed_ids := [], skipped_ids := [], queue := [] } data
  let swept := deletion_sweep (st.processed_ids ++ st.skipped_ids) st.tracked st.queue st.tracked
  { tracked := swept.1, queue := swept.2.1, crashed := swept.2.2 }

/-- Outcome of `bridge.fetch_data()` as seen by `__event_reader`: a device
list, a transient error (`aiohttp.ClientError` / `asyncio.TimeoutError`,
caught and only logged), or any other exception (logged and re-raised). -/
inductive FetchResult : Type
  | ok (data : List HubspaceDevice)
  | transient_error
  | fatal_error
deriving DecidableEq

/-- Observable outcome of one `while True` iteration of
`EventStream.__event_reader`. -/
structure ReaderOutcome where
  tracked : List String
  queued : List HubSpaceEvent
  /-- connection events emitted to subscribers during the iteration; the
  source contains no `emit` call in `__event_reader`, so this is always
  empty. -/
  emitted : List EventType
  status : EventStreamStatus
  /-- the iteration ended the task with an uncaught exception: a re-raised
  unexpected fetch error, or the deletion sweep's `RuntimeError`. -/
  fatal : Bool
deriving DecidableEq

/-- One iteration of the poll loop of `EventStream.__event_reader`.  On a
fetched device list the body classifies and sweeps; if the sweep's
`RuntimeError` escapes (raised from the `else:` clause, caught by no `except`
arm) the task dies before the trailing
`self._status = EventStreamStatus.DISCONNECTED` line, which otherwise runs
unconditionally at the end of every iteration.  On a transient error the
`except (ClientError, asyncio.TimeoutError)` arm only logs, skipping the
`else:` sweep; on any other error the exception is re-raised, also before the
trailing status line. -/
def event_reader_iteration (status : EventStreamStatus)
    (tracked tracked_device_classes : List String) (r : FetchResult) : ReaderOutcome :=
  match r with
  | FetchResult.ok data =>
    let p := process_poll tracked tracked_device_classes data
    if p.crashed then
      { tracked := p.tracked, queued := p.queue, emitted := [],
        status := status, fatal := true }
    else
      { tracked := p.tracked, queued := p.queue, emitted := [],
        status := EventStreamStatus.disconnected, fatal := false }
  | FetchResult.transient_error =>
    { tracked := tracked, queued := [], emitted := [],
      status := EventStreamStatus.disconnected, fatal := false }
  | FetchResult.fatal_error =>
    { tracked := tracked, queued := [], emitted := [], status := status, fatal := true }

/-- Run consecutive iterations of `EventStream.__event_reader`, accumulating
queued events and emitted connection events; a re-raised exception ends the
task, dropping the remaining fetches. -/
def event_reader_run (status : EventStreamStatus)
    (tracked tracked_device_classes : List String) :
    List FetchResult → ReaderOutcome
  | [] => { tracked := tracked, queued := [], emitted := [], status := status,
            fatal := false }
  | r :: rest =>
    let o := event_reader_iteration status tracked tracked_device_classes r
    if o.fatal then o
    else
      let o' := event_reader_run o.status o.tracked tracked_device_classes rest
      { tracked := o'.tracked, queued := o.queued ++ o'.queued,
        emitted := o.emitted ++ o'.emitted, status := o'.status, fatal := o'.fatal }

/-! ## Subscription router (`EventStream.subscribe` / `EventStream.emit`) -/

/-- One subscription registered through `EventStream.subscribe`: the optional
event-type filter, the optional resource (device-class) filter, and the
behaviour of the callback itself.  The callback body is opaque to the event
stream; what matters to it is whether the callback is a coroutine function
(dispatched with `asyncio.create_task`, so its exceptions never reach `emit`)
and whether invoking it raises. -/
structure Subscriber where
  event_filter : Option (List EventType) := none
  resource_filter : Option (List String) := none
  is_coroutine : Bool := false
  raises : Bool := false
deriving DecidableEq

/-- Filter logic of `EventStream.emit` for one subscription: skip when the
event type misses the event filter; when a payload is attached and the
subscription has a resource filter and the payload carries a device whose
`device_class` misses the filter, skip; otherwise invoke.  A payload without a
`device` slot bypasses the resource filter. -/
def emit_matches (s : Subscriber) (event_type : EventType)
    (data : Option HubSpaceEvent) : Bool :=
  (match s.event_filter with
   | some flt => event_type ∈ flt
   | none => true) &&
  (match data with
   | none => true
   | some ev =>
     match s.resource_filter with
     | none => true
     | some flt =>
       match ev.device with
       | none => true
       | some d => d.device_class ∈ flt)

/-- Result of `EventStream.emit`: the 0-based indices of the subscriptions
whose callback was invoked, in invocation order, and whether a synchronous
callback's exception escaped `emit` (the loop body has no handler, so such an
exception aborts the remaining iterations). -/
structure EmitResult where
  invoked : List Nat
  errored : Bool
deriving DecidableEq

/-- The subscriber loop of `EventStream.emit`, carrying the index of the next
subscription.  A matching coroutine callback is detached via
`asyncio.create_task`; a matching synchronous callback runs inline and, if it
raises, the exception propagates immediately. -/
def emit_loop (event_type : EventType) (data : Option HubSpaceEvent) :
    Nat → List Subscriber → EmitResult
  | _, [] => { invoked := [], errored := false }
  | i, s :: rest =>
    if emit_matches s event_type data then
      if !s.is_coroutine && s.raises then { invoked := [i], errored := true }
      else
        let r := emit_loop event_type data (i + 1) rest
        { invoked := i :: r.invoked, errored := r.errored }
    else emit_loop event_type data (i + 1) rest

/-- `EventStream.emit`: iterate all subscriptions from index 0. -/
def emit (subscribers : List Subscriber) (event_type : EventType)
    (data : Option HubSpaceEvent) : EmitResult :=
  emit_loop event_type data 0 subscribers

/-- `EventStream.__event_processor`: dequeue events one at a time and `emit`
each.  The loop body has no exception handler, so the first emit whose
synchronous callback raises kills the consumer task and the remaining queued
events are never processed.  Returns the emit results of the processed
events. -/
def event_processor_run (subscribers : List Subscriber) :
    List HubSpaceEvent → List EmitResult
  | [] => []
  | ev :: rest =>
    let r := emit subscribers ev.type (some ev)
    if r.errored then [r]
    else r :: event_processor_run subscribers rest

/-! ## Fan controller (`v1/controllers/fan.py`)

`models/fan.py` and `models/features.py` are not part of the sources; the
`Fan` record and its feature records below are modelled from the spec
("CategoryModel ... denormalized, feature-oriented view") and from the exact
constructor/attribute uses in `fan.py`. -/

/-- Python `set.add` on a set of strings embedded as a duplicate-free list. -/
def set_add (s : List String) (x : String) : List String :=
  if x ∈ s then s else s ++ [x]

/-- Python `str.endswith`: the suffix's characters end the string. -/
def str_ends_with (s suffix : String) : Bool :=
  suffix.data.isSuffixOf s.data

/-- Code-point lexicographic comparison on character lists (the order Python
string comparison uses). -/
def chars_le : List Char → List Char → Bool
  | [], _ => true
  | _ :: _, [] => false
  | a :: as, b :: bs =>
    if a.toNat < b.toNat then true
    else if b.toNat < a.toNat then false
    else chars_le as bs

/-- Python `<=` on strings: code-point lexicographic order. -/
def str_le (a b : String) : Bool :=
  chars_le a.data b.data

/-- Insert a string into an ascending list (helper for `sorted_strings`). -/
def insert_sorted (x : String) : List String → List String
  | [] => [x]
  | y :: ys => if str_le x y then x :: y :: ys else y :: insert_sorted x ys

/-- Python `sorted` on a list of strings (stable, ascending lexicographic). -/
def sorted_strings : List String → List String
  | [] => []
  | x :: xs => insert_sorted x (sorted_strings xs)

/-- Collapse equal neighbours of a sorted list, so that
`dedup_sorted (sorted_strings l)` is `sorted(set(l))`. -/
def dedup_sorted : List String → List String
  | [] => []
  | [x] => [x]
  | x :: y :: rest =>
    if x == y then dedup_sorted (y :: rest) else x :: dedup_sorted (y :: rest)

/-- `fan.KNOWN_PRESETS`. -/
def KNOWN_PRESETS : List String := ["comfort-breeze"]

/-- Python `==` between a dynamically typed state value and a string literal
(a boolean never equals a string). -/
def HSValue.eqStr : HSValue → String → Bool
  | HSValue.s v, w => v == w
  | HSValue.b _, _ => false

/-- `state.functionInstance in KNOWN_PRESETS` (Python `None` is in no set of
strings). -/
def instance_in_known_presets : Option String → Bool
  | some inst => inst ∈ KNOWN_PRESETS
  | none => false

/-- `util.ordered_list_item_to_percentage` applied to a dynamically typed
state value and a list of strings: a boolean is not an element of a list of
strings, so it raises `ValueError` exactly like any other absent item. -/
def hs_value_to_percentage (speeds : List String) : HSValue → Except String Nat
  | HSValue.s v => ordered_list_item_to_percentage speeds v
  | HSValue.b _ => Except.error "ValueError: the item is not in the list"

/-- `features.OnFeature` (modelled from use: single `on` flag). -/
structure OnFeature where
  «on» : Bool
deriving DecidableEq

/-- `features.SpeedFeature` (modelled from use: percentage plus the ordered
list of selectable speed names). -/
structure SpeedFeature where
  speed : Nat
  speeds : List String
deriving DecidableEq

/-- `features.DirectionFeature` (modelled from use). -/
structure DirectionFeature where
  forward : Bool
deriving DecidableEq

/-- `features.PresetFeature` (modelled from use). -/
structure PresetFeature where
  enabled : Bool
  func_class : String
  func_instance : Option String
deriving DecidableEq

/-- `models.resource.DeviceInformation`. -/
structure DeviceInformation where
  device_class : Option String := none
  default_image : Option String := none
  default_name : Option String := none
  manufacturer : Option String := none
  model : Option String := none
  name : Option String := none
  parent_id : Option String := none
deriving DecidableEq

/-- `models.fan.Fan` (not in the sources; modelled from the constructor call
in `FanController.initialize_elem` and the attribute accesses in
`FanController.update_elem`).  `available` holds the raw state value assigned
by `initialize_elem`/`update_elem` and starts out as Python `False`. -/
structure Fan where
  functions : List HSFunction
  id : String
  available : HSValue
  device_information : DeviceInformation
  «on» : Option OnFeature
  speed : Option SpeedFeature
  direction : Option DirectionFeature
  preset : Option PresetFeature
deriving DecidableEq

/-- Feature accumulator of the `for state in hs_device.states` loop of
`FanController.initialize_elem`. -/
structure InitFeatures where
  available : HSValue := HSValue.b false
  «on» : Option OnFeature := none
  speed : Option SpeedFeature := none
  direction : Option DirectionFeature := none
  preset : Option PresetFeature := none
deriving DecidableEq

/-- The state loop of `FanController.initialize_elem`.  The `fan-speed` branch
reads the matching function's value names, drops the `"-000"` (off) name,
sorts the remaining set, and decodes the state value into a percentage;
a missing function raises (`None` subscription) and an unknown speed name
raises `ValueError`. -/
def initialize_elem_loop (hs_device : HubspaceDevice) :
    InitFeatures → List HubspaceState → Except String InitFeatures
  | acc, [] => Except.ok acc
  | acc, state :: rest =>
    if state.functionClass == "power" then
      initialize_elem_loop hs_device
        { acc with «on» := some { «on» := state.value.eqStr "on" } } rest
    else if state.functionClass == "fan-speed" then
      match get_function_from_device hs_device state.functionClass state.functionInstance with
      | none => Except.error "TypeError: NoneType is not subscriptable"
      | some fn =>
        let speeds := dedup_sorted (sorted_strings
          (fn.values.filter fun name => !str_ends_with name "-000"))
        match hs_value_to_percentage speeds state.value with
        | Except.error e => Except.error e
        | Except.ok percentage =>
          initialize_elem_loop hs_device
            { acc with speed := some { speed := percentage, speeds := speeds } } rest
    else if state.functionClass == "fan-reverse" then
      initialize_elem_loop hs_device
        { acc with direction := some { forward := state.value.eqStr "forward" } } rest
    else if state.functionClass == "toggle"
        && instance_in_known_presets state.functionInstance then
      let preset : PresetFeature :=
        { enabled := state.value.eqStr "enabled"
          func_class := state.functionClass
          func_instance := state.functionInstance }
      initialize_elem_loop hs_device { acc with preset := some preset } rest
    else if state.functionClass == "available" then
      initialize_elem_loop hs_device { acc with available := state.value } rest
    else
      initialize_elem_loop hs_device acc rest

/-- The `Fan(...)` constructor call closing `FanController.initialize_elem`. -/
def build_fan (hs_device : HubspaceDevice) : Except String Fan :=
  match initialize_elem_loop hs_device {} hs_device.states with
  | Except.error e => Except.error e
  | Except.ok acc =>
    Except.ok
      { functions := hs_device.functions
        id := hs_device.id
        available := acc.available
        device_information :=
          { device_class := some hs_device.device_class
            default_image := some hs_device.default_image
            default_name := some hs_device.default_name
            manufacturer := hs_device.manufacturerName
            model := some hs_device.model
            name := some hs_device.friendly_name
            parent_id := some hs_device.device_id }
        «on» := acc.«on»
        speed := acc.speed
        direction := acc.direction
        preset := acc.preset }

/-- The controller's `self._items` dict, id → model. -/
abbrev FanItems := List (String × Fan)

/-- Python dict assignment `self._items[id] = fan`: replace in place when the
key exists, append otherwise. -/
def items_set (items : FanItems) (id : String) (fan : Fan) : FanItems :=
  if items.any (fun p => p.1 == id) then
    items.map fun p => if p.1 == id then (p.1, fan) else p
  else items ++ [(id, fan)]

/-- Modelled from the spec: `BaseResourcesController.get_device`
(`controllers/base.py` is not in the sources); spec section 4.1: "`get` fails
with NotFound when id is absent". -/
def get_device (items : FanItems) (id : String) : Except String Fan :=
  match items.find? (fun p => p.1 == id) with
  | some p => Except.ok p.2
  | none => Except.error "DeviceNotFound"

/-- `FanController.initialize_elem`: build the model and store it under the
device's id, overwriting any previous model. -/
def initialize_elem (items : FanItems) (hs_device : HubspaceDevice) :
    Except String (FanItems × Fan) :=
  match build_fan hs_device with
  | Except.error e => Except.error e
  | Except.ok fan => Except.ok (items_set items hs_device.id fan, fan)

/-- Body of the `for state in hs_device.states` loop of
`FanController.update_elem` for a single state: each recognised function class
decodes the incoming value, and only a decoded value different from the
model's current one mutates the model and records the feature name in
`updated_keys`.  Accessing a feature the model does not have raises
(`AttributeError` on `None`), and an unknown speed name raises `ValueError`
out of `ordered_list_item_to_percentage`. -/
def update_elem_step (cur_item : Fan) (updated_keys : List String)
    (state : HubspaceState) : Except String (Fan × List String) :=
  if state.functionClass == "power" then
    match cur_item.«on» with
    | none => Except.error "AttributeError: NoneType has no attribute"
    | some o =>
      let new_val := state.value.eqStr "on"
      if o.«on» != new_val then
        Except.ok ({ cur_item with «on» := some { «on» := new_val } },
          set_add updated_keys "on")
      else Except.ok (cur_item, updated_keys)
  else if state.functionClass == "fan-speed" then
    match cur_item.speed with
    | none => Except.error "AttributeError: NoneType has no attribute"
    | some sp =>
      match hs_value_to_percentage sp.speeds state.value with
      | Except.error e => Except.error e
      | Except.ok new_val =>
        if sp.speed != new_val then
          Except.ok ({ cur_item with speed := some { sp with speed := new_val } },
            set_add updated_keys "speed")
        else Except.ok (cur_item, updated_keys)
  else if state.functionClass == "fan-reverse" then
    match cur_item.direction with
    | none => Except.error "AttributeError: NoneType has no attribute"
    | some d =>
      let new_val := state.value.eqStr "forward"
      if d.forward != new_val then
        Except.ok ({ cur_item with direction := some { forward := new_val } },
          set_add updated_keys "direction")
      else Except.ok (cur_item, updated_keys)
  else if state.functionClass == "toggle"
      && instance_in_known_presets state.functionInstance then
    match cur_item.preset with
    | none => Except.error "AttributeError: NoneType has no attribute"
    | some p =>
      let new_val := state.value.eqStr "enabled"
      if p.enabled != new_val then
        Except.ok ({ cur_item with preset := some { p with enabled := new_val } },
          set_add updated_keys "preset")
      else Except.ok (cur_item, updated_keys)
  else if state.functionClass == "available" then
    if cur_item.available != state.value then
      Except.ok ({ cur_item with available := state.value },
        set_add updated_keys "available")
    else Except.ok (cur_item, updated_keys)
  else
    Except.ok (cur_item, updated_keys)

/-- The state loop of `FanController.update_elem`: fold `update_elem_step`
over the snapshot's states; a raised exception propagates immediately. -/
def update_elem_loop :
    Fan → List String → List HubspaceState → Except String (Fan × List String)
  | cur_item, updated_keys, [] => Except.ok (cur_item, updated_keys)
  | cur_item, updated_keys, state :: rest =>
    match update_elem_step cur_item updated_keys state with
    | Except.error e => Except.error e
    | Except.ok (cur, keys) => update_elem_loop cur keys rest

/-- `FanController.update_elem`: look the model up, apply the snapshot's
states, and return the set of changed feature names (the model mutates in
place, reflected here by writing the updated model back to the store). -/
def update_elem (items : FanItems) (hs_device : HubspaceDevice) :
    Except String (FanItems × List String) :=
  match get_device items hs_device.id with
  | Except.error e => Except.error e
  | Except.ok cur_item =>
    match update_elem_loop cur_item [] hs_device.states with
    | Except.error e => Except.error e
    | Except.ok (fan, updated_keys) =>
      Except.ok (items_set items hs_device.id fan, updated_keys)

deriving instance DecidableEq for Except

/-! ## Concrete fixtures -/

/-- A light device snapshot (only the slots the event stream reads). -/
def light_device : HubspaceDevice := { id := "L1", device_class := "light" }

/-- A fan device snapshot with no states, as seen by the event stream. -/
def plain_fan_device : HubspaceDevice := { id := "F1", device_class := "fan" }

/-- The `fan-speed` function of a four-speed fan, as served by the API:
value names `speed-4-000` (off) through `speed-4-100`. -/
def fan_speed_function : HSFunction :=
  { functionClass := "fan-speed"
    functionInstance := some "fan-speed"
    values := ["speed-4-000", "speed-4-25", "speed-4-50", "speed-4-75", "speed-4-100"] }

/-- Snapshot of the four-speed fan running at `speed-4-25`. -/
def fan_device_25 : HubspaceDevice :=
  { id := "fan-1"
    device_class := "fan"
    functions := [fan_speed_function]
    states := [{ functionClass := "power", value := HSValue.s "on" },
               { functionClass := "fan-speed", value := HSValue.s "speed-4-25",
                 functionInstance := some "fan-speed" }] }

/-- The same fan one poll later, running at `speed-4-75`. -/
def fan_device_75 : HubspaceDevice :=
  { fan_device_25 with
    states := [{ functionClass := "power", value := HSValue.s "on" },
               { functionClass := "fan-speed", value := HSValue.s "speed-4-75",
                 functionInstance := some "fan-speed" }] }

/-- The speed names of the four-speed fan after dropping `-000` and sorting
with Python `sorted`: lexicographic order puts `speed-4-100` first. -/
def speeds_4 : List String := ["speed-4-100", "speed-4-25", "speed-4-50", "speed-4-75"]

/-- The model `FanController.initialize_elem` builds from `fan_device_25`:
`speed-4-25` is the second name of `speeds_4`, hence `2 * 100 // 4 = 50`. -/
def fan_model_25 : Fan :=
  { functions := [fan_speed_function]
    id := "fan-1"
    available := HSValue.b false
    device_information :=
      { device_class := some "fan", default_image := some "", default_name := some "",
        manufacturer := none, model := some "", name := some "", parent_id := some "" }
    «on» := some { «on» := true }
    speed := some { speed := 50, speeds := speeds_4 }
    direction := none
    preset := none }

/-- The model after updating with `fan_device_75`: `speed-4-75` is the fourth
name of `speeds_4`, hence `4 * 100 // 4 = 100`. -/
def fan_model_75 : Fan :=
  { fan_model_25 with speed := some { speed := 100, speeds := speeds_4 } }

/-- A subscription with a `{light}` resource filter and a well-behaved
synchronous callback. -/
def sub_light_only : Subscriber := { resource_filter := some ["light"] }

/-- An unfiltered subscription whose synchronous callback raises. -/
def sub_raising : Subscriber := { raises := true }

/-- An unfiltered, well-behaved synchronous subscription. -/
def sub_plain : Subscriber := {}

/-- An `Updated` payload for the light device. -/
def light_update_event : HubSpaceEvent :=
  { type := EventType.resource_updated, device_id := "L1", device := some light_device }

/-! ## Claims about the poll loop -/

/-- Claim C1: for every prior registry content, a poll whose fetch fails with
a transient error (client-level network error / rate limit / timeout) queues
no events at all — in particular no `Deleted` events — and leaves the registry
of tracked device ids unchanged. -/
theorem claim_C1_transient_failure_preserves_registry
    (status : EventStreamStatus) (tracked tracked_device_classes : List String) :
    (event_reader_iteration status tracked tracked_device_classes
        FetchResult.transient_error).queued = []
    ∧ (∀ e ∈ (event_reader_iteration status tracked tracked_device_classes
        FetchResult.transient_error).queued, e.type ≠ EventType.resource_deleted)
    ∧ (event_reader_iteration status tracked tracked_device_classes
        FetchResult.transient_error).tracked = tracked := by
  refine ⟨rfl, ?_, rfl⟩
  intro e he
  simp [event_reader_iteration] at he

/-- Claim C3 (refuted by the code): with registry `{"X"}` and two consecutive
transient fetch failures starting from `CONNECTED`, `__event_reader` emits no
connection event whatsoever (the source contains no `emit` call at all), and
after a successful recovery poll it still emits nothing; the status is instead
set to `DISCONNECTED` unconditionally at the end of every iteration, including
successful ones. -/
theorem claim_C3_code_emits_no_connection_events :
    (event_reader_run EventStreamStatus.connected ["X"] ["light"]
      [FetchResult.transient_error, FetchResult.transient_error]).emitted = []
    ∧ (event_reader_run EventStreamStatus.connected ["X"] ["light"]
      [FetchResult.transient_error, FetchResult.transient_error]).tracked = ["X"]
    ∧ (event_reader_run EventStreamStatus.connected ["X"] ["light"]
      [FetchResult.transient_error, FetchResult.transient_error]).queued = []
    ∧ (event_reader_run EventStreamStatus.connected ["X"] ["light"]
      [FetchResult.transient_error, FetchResult.transient_error,
       FetchResult.ok [light_device]]).emitted = []
    ∧ (event_reader_iteration EventStreamStatus.connected ["X"] ["light"]
      (FetchResult.ok [{ id := "X", device_class := "light" }])).status
      = EventStreamStatus.disconnected :=
  ⟨rfl, rfl, rfl, rfl, rfl⟩

/-- Claim C4 (refuted by the code): a synchronous subscriber callback that
raises makes `emit` propagate the exception at once — the second registered
callback is never invoked — and since `__event_processor` has no exception
handler the consumer task dies, so a second queued event is never processed. -/
theorem claim_C4_raising_callback_stalls_pipeline :
    emit [sub_raising, sub_plain] EventType.resource_updated (some light_update_event)
      = { invoked := [0], errored := true }
    ∧ event_processor_run [sub_raising, sub_plain]
        [light_update_event, { type := EventType.resource_deleted, device_id := "L1" }]
      = [{ invoked := [0], errored := true }] :=
  ⟨rfl, rfl⟩

/-- Claim C2 (counterexample): with an empty registry and a poll whose fetch
list contains the same fresh light device twice, the device id is classified
twice — once `Added` and once `Updated` — not exactly once.  And with registry
`{"X", "Y"}` and an empty fetch, only `X` is classified `Deleted` and removed:
the mutation of `_known_devs` during iteration raises the uncaught
`RuntimeError`, so `Y` — also absent from the poll — is never classified
`Deleted` and stays in the registry, refuting "every id in R absent from the
poll's processed and skipped ids is classified Deleted exactly once and
removed from the registry". -/
theorem claim_C2_counterexample :
    (process_poll [] ["light"] [light_device, light_device]).queue =
      [{ type := EventType.resource_added, device_id := "L1", device := some light_device },
       { type := EventType.resource_updated, device_id := "L1", device := some light_device }]
    ∧ ((process_poll [] ["light"] [light_device, light_device]).queue.countP
        fun e => e.device_id == "L1") = 2
    ∧ (process_poll ["X", "Y"] ["light"] []).queue
        = [{ type := EventType.resource_deleted, device_id := "X" }]
    ∧ (process_poll ["X", "Y"] ["light"] []).tracked = ["Y"]
    ∧ (process_poll ["X", "Y"] ["light"] []).crashed = true :=
  ⟨rfl, rfl, rfl, rfl, rfl⟩

/-- Claim C5 (counterexample): a fetched fan device whose id is unknown and
whose class is not tracked is inserted into the registry even though it is
skipped — no event is queued for it, yet the registry ends up containing its
id, so a registry entry exists for a device never classified `Added`. -/
theorem claim_C5_counterexample :
    (process_poll [] ["light"] [plain_fan_device]).tracked = ["F1"]
    ∧ (process_poll [] ["light"] [plain_fan_device]).queue = []
    ∧ (process_poll [] ["light"] [plain_fan_device]).tracked ≠ [] := by
  refine ⟨rfl, rfl, ?_⟩
  intro h
  simp [process_poll, classify_loop, add_device, deletion_sweep, light_device,
    plain_fan_device] at h

/-- Claim C6 (counterexample): starting from the model built from the
`speed-4-25` snapshot (speed percentage 50, because Python `sorted` puts
`speed-4-100` lexicographically first), updating with the `speed-4-75`
snapshot returns `{"speed"}` but sets the percentage to 100, not 75. -/
theorem claim_C6_counterexample :
    initialize_elem [] fan_device_25 = Except.ok ([("fan-1", fan_model_25)], fan_model_25)
    ∧ update_elem [("fan-1", fan_model_25)] fan_device_75
      = Except.ok ([("fan-1", fan_model_75)], ["speed"])
    ∧ fan_model_75.speed.map SpeedFeature.speed = some 100
    ∧ fan_model_75.speed.map SpeedFeature.speed ≠ some 75 := by
  refine ⟨by decide, by decide, rfl, ?_⟩
  intro h
  simp [fan_model_75, fan_model_25] at h

/-! ## Round-trip of the percentage conversions (util.py) -/

/-- The bucket upper bounds `pos * 100 // n` are strictly increasing in `pos`
as long as the list has at most 100 items (each bucket is at least one
percentage point wide). -/
theorem bucket_upper_bound_strict_mono {n j k : Nat} (hn : 0 < n) (hn100 : n ≤ 100)
    (hjk : j < k) : (j + 1) * 100 / n < (k + 1) * 100 / n := by
  have h1 : (j + 1) * 100 + n ≤ (k + 1) * 100 := by
    calc (j + 1) * 100 + n ≤ (j + 1) * 100 + 100 := by omega
      _ = (j + 2) * 100 := by ring
      _ ≤ (k + 1) * 100 := Nat.mul_le_mul_right 100 (by omega)
  have h2 := Nat.div_le_div_right (c := n) h1
  rw [Nat.add_div_right _ hn] at h2
  omega

/-- If the first `k` positions all miss the threshold and position `k` meets
it, the search loop returns the element at index `k`. -/
theorem percentage_loop_finds {α : Type} (n p : Nat) :
    ∀ (l : List α) (pos k : Nat) (hk : k < l.length),
      (∀ j, j < k → ¬ p ≤ ((pos + j) * 100) / n) →
      p ≤ ((pos + k) * 100) / n →
      percentage_to_ordered_list_item_loop n p pos l = some (l.get ⟨k, hk⟩)
  | [], _, k, hk, _, _ => absurd hk (by simp)
  | x :: xs, pos, 0, hk, _, hhit => by
    simp only [percentage_to_ordered_list_item_loop]
    rw [if_pos (by simpa using hhit)]
    rfl
  | x :: xs, pos, k + 1, hk, hmiss, hhit => by
    simp only [percentage_to_ordered_list_item_loop]
    rw [if_neg (by simpa using hmiss 0 (Nat.succ_pos k))]
    have hk' : k < xs.length := by simpa using hk
    have htail := percentage_loop_finds n p xs (pos + 1) k hk'
      (fun j hj => by
        have := hmiss (j + 1) (by omega)
        simpa [Nat.add_assoc, Nat.add_comm, Nat.add_left_comm] using this)
      (by
        have : pos + (k + 1) = pos + 1 + k := by omega
        rw [this] at hhit
        exact hhit)
    rw [htail]
    rfl

/-- Claim C9: for every list of at most 100 items and every item occurring in
it, decoding the encoded percentage returns an item equal to the original:
`percentage_to_ordered_list_item(l, ordered_list_item_to_percentage(l, x)) = x`. -/
theorem claim_C9_percentage_roundtrip {α : Type} [DecidableEq α] (l : List α) (x : α)
    (h100 : l.length ≤ 100) (hx : x ∈ l) :
    ∃ p, ordered_list_item_to_percentage l x = Except.ok p
      ∧ percentage_to_ordered_list_item l p = Except.ok x := by
  have hn : 0 < l.length := List.length_pos.mpr (List.ne_nil_of_mem hx)
  have hidx : l.indexOf x < l.length := List.indexOf_lt_length.mpr hx
  refine ⟨(l.indexOf x + 1) * 100 / l.length, ?_, ?_⟩
  · unfold ordered_list_item_to_percentage
    rw [if_pos hx]
  · obtain ⟨a, as, rfl⟩ : ∃ a as, l = a :: as := by
      cases l with
      | nil => exact absurd hx (by simp)
      | cons a as => exact ⟨a, as, rfl⟩
    have hloop := percentage_loop_finds (a :: as).length
      (((a :: as).indexOf x + 1) * 100 / (a :: as).length)
      (a :: as) 1 ((a :: as).indexOf x) hidx
      (fun j hj => by
        have hlt := bucket_upper_bound_strict_mono hn h100 hj
        have h1j : 1 + j = j + 1 := by omega
        rw [h1j]
        omega)
      (by
        have h1i : 1 + (a :: as).indexOf x = (a :: as).indexOf x + 1 := by omega
        rw [h1i])
    simp only [percentage_to_ordered_list_item]
    rw [hloop, List.indexOf_get]

/-! ## Error behaviour of the percentage decoding (claim C10) -/

/-- A successful `update_elem_step` keeps the speed feature present and never
touches its `speeds` list (only the `speed` percentage can change). -/
theorem update_elem_step_speeds (cur : Fan) (keys : List String) (st : HubspaceState)
    (cur' : Fan) (keys' : List String)
    (h : update_elem_step cur keys st = Except.ok (cur', keys'))
    (sp : SpeedFeature) (hsp : cur.speed = some sp) :
    ∃ m, cur'.speed = some { speed := m, speeds := sp.speeds } := by
  simp only [update_elem_step] at h
  repeat' split at h
  all_goals simp only [Except.ok.injEq, Prod.mk.injEq, reduceCtorEq] at h
  all_goals obtain ⟨h1, h2⟩ := h
  all_goals subst h1
  all_goals simp_all
  all_goals exact ⟨_, rfl⟩

/-- If any state of the snapshot carries a `fan-speed` value that is not among
the model's known speed names, the update loop raises. -/
theorem update_elem_loop_error_of_bad_speed :
    ∀ (states : List HubspaceState) (cur : Fan) (keys : List String)
      (sp : SpeedFeature) (v : String),
      cur.speed = some sp →
      (∃ st ∈ states, st.functionClass = "fan-speed" ∧ st.value = HSValue.s v) →
      v ∉ sp.speeds →
      ∃ e, update_elem_loop cur keys states = Except.error e
  | [], _, _, _, _, _, hmem, _ => absurd hmem (by simp)
  | st0 :: rest, cur, keys, sp, v, hsp, hmem, hv => by
    rcases hmem with ⟨st, hstmem, hcls, hval⟩
    rcases List.mem_cons.mp hstmem with rfl | hrest
    · have h1 : ("fan-speed" == "power") = false := rfl
      have h2 : ("fan-speed" == "fan-speed") = true := rfl
      have hstep : update_elem_step cur keys st
          = Except.error "ValueError: the item is not in the list" := by
        simp only [update_elem_step, hcls, h1, h2, Bool.false_eq_true, if_false, if_true,
          hsp, hval, hs_value_to_percentage]
        unfold ordered_list_item_to_percentage
        rw [if_neg hv]
      exact ⟨"ValueError: the item is not in the list",
        by simp [update_elem_loop, hstep]⟩
    · cases hstep : update_elem_step cur keys st0 with
      | error e => exact ⟨e, by simp [update_elem_loop, hstep]⟩
      | ok p =>
        obtain ⟨cur2, keys2⟩ := p
        obtain ⟨m, hsp2⟩ := update_elem_step_speeds cur keys st0 cur2 keys2 hstep sp hsp
        obtain ⟨e, he⟩ := update_elem_loop_error_of_bad_speed rest cur2 keys2
          { speed := m, speeds := sp.speeds } v hsp2 ⟨st, hrest, hcls, hval⟩ hv
        exact ⟨e, by simp [update_elem_loop, hstep, he]⟩

/-- Claim C10: `ordered_list_item_to_percentage(l, x)` raises `ValueError` if
and only if `x` is not an element of `l`; when `x` is in `l` it returns
`((first index of x) + 1) * 100 // len(l)` without raising; consequently
`FanController.update_elem` raises when a snapshot carries a fan-speed value
not among the model's known speeds. -/
theorem claim_C10_value_error_iff_absent :
    (∀ (l : List String) (x : String),
      ((∃ e, ordered_list_item_to_percentage l x = Except.error e) ↔ x ∉ l)
      ∧ (x ∈ l → ordered_list_item_to_percentage l x
          = Except.ok ((l.indexOf x + 1) * 100 / l.length)))
    ∧ ∀ (items : FanItems) (hs_device : HubspaceDevice) (cur : Fan)
        (sp : SpeedFeature) (v : String),
        get_device items hs_device.id = Except.ok cur →
        cur.speed = some sp →
        (∃ st ∈ hs_device.states, st.functionClass = "fan-speed" ∧ st.value = HSValue.s v) →
        v ∉ sp.speeds →
        ∃ e, update_elem items hs_device = Except.error e := by
  constructor
  · intro l x
    constructor
    · unfold ordered_list_item_to_percentage
      by_cases hx : x ∈ l
      · rw [if_pos hx]
        simp [hx]
      · rw [if_neg hx]
        simp [hx]
    · intro hx
      unfold ordered_list_item_to_percentage
      rw [if_pos hx]
  · intro items hs_device cur sp v hget hsp hbad hv
    obtain ⟨e, he⟩ := update_elem_loop_error_of_bad_speed hs_device.states cur [] sp v
      hsp hbad hv
    exact ⟨e, by simp [update_elem, hget, he]⟩

/-- A later snapshot of the four-speed fan whose reported speed name is not
one of the model's known speeds. -/
def fan_device_bad_speed : HubspaceDevice :=
  { fan_device_25 with
    states := [{ functionClass := "fan-speed", value := HSValue.s "speed-9-99",
                 functionInstance := some "fan-speed" }] }

/-- Witness for claim C10 at a concrete input: updating the stored four-speed
fan model with a snapshot reporting the unknown speed `speed-9-99` raises. -/
theorem claim_C10_witness :
    ∃ e, update_elem [("fan-1", fan_model_25)] fan_device_bad_speed = Except.error e :=
  claim_C10_value_error_iff_absent.2 [("fan-1", fan_model_25)] fan_device_bad_speed
    fan_model_25 { speed := 50, speeds := speeds_4 } "speed-9-99" rfl rfl
    ⟨{ functionClass := "fan-speed", value := HSValue.s "speed-9-99",
       functionInstance := some "fan-speed" }, by simp [fan_device_bad_speed], rfl, rfl⟩
    (by decide)

/-- Witness for claim C9 at a concrete input: `"high"` in a four-item list
encodes to 75 and decodes back to `"high"`. -/
theorem claim_C9_witness :
    (["low", "medium", "high", "very_high"] : List String).length ≤ 100
    ∧ "high" ∈ (["low", "medium", "high", "very_high"] : List String)
    ∧ ∃ p, ordered_list_item_to_percentage ["low", "medium", "high", "very_high"] "high"
          = Except.ok p
        ∧ percentage_to_ordered_list_item ["low", "medium", "high", "very_high"] p
          = Except.ok "high" :=
  ⟨by decide, by decide,
   claim_C9_percentage_roundtrip ["low", "medium", "high", "very_high"] "high"
     (by decide) (by decide)⟩

/-! ## Emit filter semantics (claim C7) -/

/-- When no synchronous subscriber raises, the emit loop starting at index `i`
completes without an escaping exception, invokes exactly the matching
subscriptions, keeps indices in `[i, i + length)`, and invokes no index
twice. -/
theorem emit_loop_characterization (event_type : EventType) (data : Option HubSpaceEvent) :
    ∀ (subs : List Subscriber) (i : Nat),
      (∀ s ∈ subs, s.is_coroutine = true ∨ s.raises = false) →
      (emit_loop event_type data i subs).errored = false
      ∧ (∀ n, n ∈ (emit_loop event_type data i subs).invoked ↔
          ∃ h : n - i < subs.length, i ≤ n
            ∧ emit_matches (subs.get ⟨n - i, h⟩) event_type data = true)
      ∧ (emit_loop event_type data i subs).invoked.Nodup
  | [], i, _ => by
    refine ⟨rfl, fun n => ?_, by simp [emit_loop]⟩
    simp [emit_loop]
  | s :: rest, i, hok => by
    have hrest := emit_loop_characterization event_type data rest (i + 1)
      (fun t ht => hok t (List.mem_cons_of_mem s ht))
    have hbound : ∀ n, n ∈ (emit_loop event_type data (i + 1) rest).invoked → i + 1 ≤ n := by
      intro n hn
      rcases (hrest.2.1 n).mp hn with ⟨h, hle, -⟩
      exact hle
    by_cases hm : emit_matches s event_type data = true
    · have hnr : (!s.is_coroutine && s.raises) = false := by
        rcases hok s (List.mem_cons_self s rest) with hc | hr
        · simp [hc]
        · simp [hr]
      have hloop : emit_loop event_type data i (s :: rest)
          = { invoked := i :: (emit_loop event_type data (i + 1) rest).invoked,
              errored := (emit_loop event_type data (i + 1) rest).errored } := by
        simp only [emit_loop, hm, if_true, hnr]
        simp
      refine ⟨by rw [hloop]; exact hrest.1, fun n => ?_, ?_⟩
      · rw [hloop]
        simp only [List.mem_cons]
        constructor
        · rintro (rfl | hn)
          · exact ⟨by simp, Nat.le_refl n, by simpa using hm⟩
          · rcases (hrest.2.1 n).mp hn with ⟨h, hle, hmt⟩
            have hni : n - i = (n - (i + 1)) + 1 := by omega
            refine ⟨by simpa [hni] using Nat.succ_lt_succ h, by omega, ?_⟩
            have : (s :: rest).get ⟨n - i, by simpa [hni] using Nat.succ_lt_succ h⟩
                = rest.get ⟨n - (i + 1), h⟩ := by
              simp [hni]
            rw [this]
            exact hmt
        · rintro ⟨h, hle, hmt⟩
          rcases Nat.eq_or_lt_of_le hle with rfl | hlt
          · exact Or.inl rfl
          · right
            have hni : n - i = (n - (i + 1)) + 1 := by omega
            have h' : n - (i + 1) < rest.length := by
              simp [hni] at h
              omega
            refine (hrest.2.1 n).mpr ⟨h', by omega, ?_⟩
            have : (s :: rest).get ⟨n - i, h⟩ = rest.get ⟨n - (i + 1), h'⟩ := by
              simp [hni]
            rw [this] at hmt
            exact hmt
      · rw [hloop]
        refine List.Nodup.cons (fun hmem => ?_) hrest.2.2
        have := hbound i hmem
        omega
    · have hloop : emit_loop event_type data i (s :: rest)
          = emit_loop event_type data (i + 1) rest := by
        simp only [emit_loop, hm]
        simp
      refine ⟨by rw [hloop]; exact hrest.1, fun n => ?_, by rw [hloop]; exact hrest.2.2⟩
      rw [hloop]
      constructor
      · intro hn
        rcases (hrest.2.1 n).mp hn with ⟨h, hle, hmt⟩
        have hni : n - i = (n - (i + 1)) + 1 := by omega
        refine ⟨by simpa [hni] using Nat.succ_lt_succ h, by omega, ?_⟩
        have : (s :: rest).get ⟨n - i, by simpa [hni] using Nat.succ_lt_succ h⟩
            = rest.get ⟨n - (i + 1), h⟩ := by
          simp [hni]
        rw [this]
        exact hmt
      · rintro ⟨h, hle, hmt⟩
        rcases Nat.eq_or_lt_of_le hle with rfl | hlt
        · have h0 : i - i = 0 := Nat.sub_self i
          have hget : (s :: rest).get ⟨i - i, h⟩ = s := by
            simp [h0]
          rw [hget] at hmt
          exact absurd hmt hm
        · have hni : n - i = (n - (i + 1)) + 1 := by omega
          have h' : n - (i + 1) < rest.length := by
            simp [hni] at h
            omega
          refine (hrest.2.1 n).mpr ⟨h', by omega, ?_⟩
          have : (s :: rest).get ⟨n - i, h⟩ = rest.get ⟨n - (i + 1), h'⟩ := by
            simp [hni]
          rw [this] at hmt
          exact hmt

/-- Claim C7: when no synchronous callback raises, `emit(event_type, event)`
invokes exactly the subscriptions whose filters match — a subscription is
invoked iff the event type passes its event filter and, when the payload
carries a device and the subscription has a resource filter, the device's
class is in that filter (payloads without a device bypass the resource
filter) — each matching subscription exactly once (the invocation list has no
duplicates). -/
theorem claim_C7_emit_filters (subs : List Subscriber) (event_type : EventType)
    (data : Option HubSpaceEvent)
    (hok : ∀ s ∈ subs, s.is_coroutine = true ∨ s.raises = false) :
    (emit subs event_type data).errored = false
    ∧ (∀ n, n ∈ (emit subs event_type data).invoked ↔
        ∃ h : n < subs.length, emit_matches (subs.get ⟨n, h⟩) event_type data = true)
    ∧ (emit subs event_type data).invoked.Nodup := by
  have h := emit_loop_characterization event_type data subs 0 hok
  refine ⟨h.1, fun n => ?_, h.2.2⟩
  constructor
  · intro hn
    rcases (h.2.1 n).mp hn with ⟨hlt, -, hmt⟩
    have hlt' : n < subs.length := by simpa using hlt
    refine ⟨hlt', ?_⟩
    have hfin : (⟨n - 0, hlt⟩ : Fin subs.length) = ⟨n, hlt'⟩ := Fin.ext (Nat.sub_zero n)
    rw [hfin] at hmt
    exact hmt
  · rintro ⟨hlt, hmt⟩
    refine (h.2.1 n).mpr ⟨by simpa using hlt, Nat.zero_le n, ?_⟩
    have hfin : (⟨n - 0, by simpa using hlt⟩ : Fin subs.length) = ⟨n, hlt⟩ :=
      Fin.ext (Nat.sub_zero n)
    rw [hfin]
    exact hmt

/-- An `Updated` payload for the plain fan device. -/
def fan_update_event : HubSpaceEvent :=
  { type := EventType.resource_updated, device_id := "F1", device := some plain_fan_device }

/-- Witness for claim C7 at a concrete input: a subscriber with a `{light}`
resource filter does not fire for a fan `Updated` event and fires exactly once
for a light `Updated` event. -/
theorem claim_C7_witness :
    (emit [sub_light_only] EventType.resource_updated (some fan_update_event)).errored
      = false
    ∧ (0 ∈ (emit [sub_light_only] EventType.resource_updated
          (some fan_update_event)).invoked
        ↔ ∃ h : 0 < [sub_light_only].length,
            emit_matches ([sub_light_only].get ⟨0, h⟩) EventType.resource_updated
              (some fan_update_event) = true)
    ∧ (0 ∈ (emit [sub_light_only] EventType.resource_updated
          (some light_update_event)).invoked
        ↔ ∃ h : 0 < [sub_light_only].length,
            emit_matches ([sub_light_only].get ⟨0, h⟩) EventType.resource_updated
              (some light_update_event) = true) :=
  ⟨(claim_C7_emit_filters [sub_light_only] EventType.resource_updated
      (some fan_update_event) (by decide)).1,
   (claim_C7_emit_filters [sub_light_only] EventType.resource_updated
      (some fan_update_event) (by decide)).2.1 0,
   (claim_C7_emit_filters [sub_light_only] EventType.resource_updated
      (some light_update_event) (by decide)).2.1 0⟩

/-! ## Idempotence of `initialize_elem` (claim C8) -/

/-- Replacing the value under an absent key touches nothing. -/
theorem items_map_replace_of_not_mem (id : String) (f : Fan) :
    ∀ (l : FanItems), id ∉ l.map Prod.fst →
      l.map (fun p => if p.1 == id then (p.1, f) else p) = l
  | [], _ => rfl
  | p :: rest, h => by
    have hne : p.1 ≠ id := by
      intro he
      exact h (by simp [he])
    have hp : (p.1 == id) = false := beq_eq_false_iff_ne.mpr hne
    simp only [List.map_cons, hp, Bool.false_eq_true, if_false]
    rw [items_map_replace_of_not_mem id f rest (fun hm => h (by simp [hm]))]

/-- Filtering for an absent key gives the empty list. -/
theorem items_filter_of_not_mem (id : String) :
    ∀ (l : FanItems), id ∉ l.map Prod.fst →
      l.filter (fun p => p.1 == id) = []
  | [], _ => rfl
  | p :: rest, h => by
    have hne : p.1 ≠ id := by
      intro he
      exact h (by simp [he])
    have hp : (p.1 == id) = false := beq_eq_false_iff_ne.mpr hne
    simp only [List.filter_cons, hp, Bool.false_eq_true, if_false]
    exact items_filter_of_not_mem id rest (fun hm => h (by simp [hm]))

/-- After `self._items[id] = fan` on a dict with duplicate-free keys, the
entries under `id` are exactly `[(id, fan)]`. -/
theorem items_set_filter (id : String) (f : Fan) :
    ∀ (l : FanItems), (l.map Prod.fst).Nodup →
      (items_set l id f).filter (fun p => p.1 == id) = [(id, f)]
  | [], _ => by simp [items_set, List.filter]
  | p :: rest, hnd => by
    have hnd' : (rest.map Prod.fst).Nodup := (List.nodup_cons.mp (by simpa using hnd)).2
    have hpnot : p.1 ∉ rest.map Prod.fst := (List.nodup_cons.mp (by simpa using hnd)).1
    by_cases hp : (p.1 == id) = true
    · have hid : p.1 = id := by simpa using hp
      have hany : ((p :: rest).any fun q => q.1 == id) = true := by
        simp [List.any_cons, hp]
      have hidnot : id ∉ rest.map Prod.fst := hid ▸ hpnot
      have hmap : (p :: rest).map (fun q => if q.1 == id then (q.1, f) else q)
          = (p.1, f) :: rest := by
        simp only [List.map_cons, hp, if_true]
        rw [items_map_replace_of_not_mem id f rest hidnot]
      simp only [items_set, hany, if_true, hmap, List.filter_cons, hp, if_true]
      rw [items_filter_of_not_mem id rest hidnot, hid]
    · have hpf : (p.1 == id) = false := by simpa using hp
      by_cases hr : (rest.any fun q => q.1 == id) = true
      · have hany : ((p :: rest).any fun q => q.1 == id) = true := by
          simp [List.any_cons, hr]
        have hih := items_set_filter id f rest hnd'
        simp only [items_set, hr, if_true] at hih
        simp only [items_set, hany, if_true, List.map_cons, hpf, Bool.false_eq_true,
          if_false, List.filter_cons, hpf]
        exact hih
      · have hany : ((p :: rest).any fun q => q.1 == id) = false := by
          simp [List.any_cons, hpf, hr]
        have hrest : rest.filter (fun q => q.1 == id) = [] := by
          refine items_filter_of_not_mem id rest fun hm => ?_
          rcases List.mem_map.mp hm with ⟨q, hq, hqid⟩
          exact hr (List.any_eq_true.mpr ⟨q, hq, by simp [hqid]⟩)
        simp only [items_set, hany, Bool.false_eq_true, if_false, List.filter_append,
          List.filter_cons, hpf, hrest]
        simp

/-- Claim C8: calling `initialize_elem` twice with snapshots bearing the same
device id leaves the store with exactly one model for that id, and that model
is the one built from the second call's input — `initialize_elem` overwrites
any existing model for the id. -/
theorem claim_C8_initialize_overwrites (items : FanItems) (d1 d2 : HubspaceDevice)
    (items1 items2 : FanItems) (f1 f2 : Fan)
    (hnd : (items.map Prod.fst).Nodup)
    (hid : d1.id = d2.id)
    (h1 : initialize_elem items d1 = Except.ok (items1, f1))
    (h2 : initialize_elem items1 d2 = Except.ok (items2, f2)) :
    build_fan d2 = Except.ok f2
    ∧ items2.filter (fun p => p.1 == d2.id) = [(d2.id, f2)]
    ∧ items2.countP (fun p => p.1 == d2.id) = 1 := by
  cases hb1 : build_fan d1 with
  | error e =>
    rw [initialize_elem, hb1] at h1
    exact absurd h1 (by simp)
  | ok g1 =>
    rw [initialize_elem, hb1] at h1
    simp only [Except.ok.injEq, Prod.mk.injEq] at h1
    obtain ⟨h1i, h1f⟩ := h1
    cases hb2 : build_fan d2 with
    | error e =>
      rw [initialize_elem, hb2] at h2
      exact absurd h2 (by simp)
    | ok g2 =>
      rw [initialize_elem, hb2] at h2
      simp only [Except.ok.injEq, Prod.mk.injEq] at h2
      obtain ⟨h2i, h2f⟩ := h2
      subst h2f
      have hnd1 : (items1.map Prod.fst).Nodup := by
        rw [← h1i]
        unfold items_set
        split
        · have hfst : (items.map fun p => if p.1 == d1.id then (p.1, g1) else p).map
              Prod.fst = items.map Prod.fst := by
            rw [List.map_map]
            refine List.map_congr_left fun p _ => ?_
            by_cases hp : p.1 = d1.id <;> simp [hp]
          rw [hfst]
          exact hnd
        · rename_i hany
          rw [List.map_append]
          have hnot : d1.id ∉ items.map Prod.fst := by
            intro hm
            rcases List.mem_map.mp hm with ⟨q, hq, hqid⟩
            exact hany (List.any_eq_true.mpr ⟨q, hq, by simp [hqid]⟩)
          simp only [List.map_cons, List.map_nil]
          exact List.Nodup.append hnd (List.nodup_singleton d1.id)
            (by simpa [List.disjoint_singleton] using hnot)
      refine ⟨rfl, ?_, ?_⟩
      · rw [← h2i]
        exact items_set_filter d2.id g2 items1 hnd1
      · rw [List.countP_eq_length_filter, ← h2i,
          items_set_filter d2.id g2 items1 hnd1]
        rfl

/-- Witness for claim C8 at a concrete input: initializing the store with the
`speed-4-25` snapshot and then again with the `speed-4-75` snapshot (same id)
leaves exactly one model, the one built from the second snapshot. -/
theorem claim_C8_witness :
    build_fan fan_device_75 = Except.ok fan_model_75
    ∧ ([("fan-1", fan_model_75)] : FanItems).filter
        (fun p => p.1 == fan_device_75.id) = [(fan_device_75.id, fan_model_75)]
    ∧ ([("fan-1", fan_model_75)] : FanItems).countP
        (fun p => p.1 == fan_device_75.id) = 1 :=
  claim_C8_initialize_overwrites [] fan_device_25 fan_device_75
    [("fan-1", fan_model_25)] [("fan-1", fan_model_75)] fan_model_25 fan_model_75
    (by decide) rfl (by decide) (by decide)

/-! ## Classification accounting (claims C2 and C5) -/

/-- The event is an `Added`-or-`Updated` classification of the given id. -/
def is_add_or_update_for (id : String) (e : HubSpaceEvent) : Bool :=
  e.device_id == id
    && (e.type == EventType.resource_added || e.type == EventType.resource_updated)

/-- The event is an `Added` classification of the given id. -/
def is_added_for (id : String) (e : HubSpaceEvent) : Bool :=
  e.device_id == id && e.type == EventType.resource_added

/-- The event is a `Deleted` classification of the given id. -/
def is_deleted_for (id : String) (e : HubSpaceEvent) : Bool :=
  e.device_id == id && e.type == EventType.resource_deleted

/-- The event carries the given id. -/
def is_event_for (id : String) (e : HubSpaceEvent) : Bool :=
  e.device_id == id

/-- The classification loop's registry membership: ids accumulate — after the
loop the registry holds exactly the prior ids plus every fetched id. -/
theorem classify_loop_tracked_mem (cls : List String) :
    ∀ (data : List HubspaceDevice) (st : ClassifyState) (x : String),
      x ∈ (classify_loop cls st data).tracked
        ↔ x ∈ st.tracked ∨ x ∈ data.map HubspaceDevice.id
  | [], st, x => by simp [classify_loop]
  | dev :: rest, st, x => by
    by_cases ht : dev.id ∈ st.tracked <;> by_cases hc : dev.device_class ∈ cls <;>
      simp only [classify_loop, ht, hc, add_device, if_true, if_false, not_true_eq_false,
        not_false_eq_true, ite_true, ite_false, if_neg, List.map_cons, List.mem_cons] <;>
      rw [classify_loop_tracked_mem cls rest] <;>
      simp only [List.mem_append, List.mem_singleton]
    · constructor
      · rintro (h | h)
        · exact Or.inl h
        · exact Or.inr (Or.inr h)
      · rintro (h | rfl | h)
        · exact Or.inl h
        · exact Or.inl ht
        · exact Or.inr h
    · constructor
      · rintro (h | h)
        · exact Or.inl h
        · exact Or.inr (Or.inr h)
      · rintro (h | rfl | h)
        · exact Or.inl h
        · exact Or.inl ht
        · exact Or.inr h
    · constructor
      · rintro ((h | h) | h)
        · exact Or.inl h
        · exact Or.inr (Or.inl h)
        · exact Or.inr (Or.inr h)
      · rintro (h | rfl | h)
        · exact Or.inl (Or.inl h)
        · exact Or.inl (Or.inr rfl)
        · exact Or.inr h
    · constructor
      · rintro ((h | h) | h)
        · exact Or.inl h
        · exact Or.inr (Or.inl h)
        · exact Or.inr (Or.inr h)
      · rintro (h | rfl | h)
        · exact Or.inl (Or.inl h)
        · exact Or.inl (Or.inr rfl)
        · exact Or.inr h

/-- The classification loop preserves duplicate-freedom of the registry
(`add_device` only inserts absent ids). -/
theorem classify_loop_tracked_nodup (cls : List String) :
    ∀ (data : List HubspaceDevice) (st : ClassifyState),
      st.tracked.Nodup → (classify_loop cls st data).tracked.Nodup
  | [], st, h => by simpa [classify_loop] using h
  | dev :: rest, st, h => by
    by_cases ht : dev.id ∈ st.tracked <;> by_cases hc : dev.device_class ∈ cls <;>
      simp only [classify_loop, ht, hc, add_device, if_true, if_false, not_true_eq_false,
        not_false_eq_true, ite_true, ite_false] <;>
      apply classify_loop_tracked_nodup cls rest
    · exact h
    · exact h
    · simpa [List.nodup_append] using ⟨h, ht⟩
    · simpa [List.nodup_append] using ⟨h, ht⟩

/-- An id is in `processed_ids + skipped_ids` after the loop exactly when it
was there before or some fetched device carries it (each fetched device lands
in exactly one of the two lists). -/
theorem classify_loop_procskip_mem (cls : List String) :
    ∀ (data : List HubspaceDevice) (st : ClassifyState) (x : String),
      x ∈ (classify_loop cls st data).processed_ids
          ++ (classify_loop cls st data).skipped_ids
        ↔ x ∈ st.processed_ids ++ st.skipped_ids ∨ x ∈ data.map HubspaceDevice.id
  | [], st, x => by simp [classify_loop]
  | dev :: rest, st, x => by
    by_cases ht : dev.id ∈ st.tracked <;> by_cases hc : dev.device_class ∈ cls <;>
      simp only [classify_loop, ht, hc, add_device, if_true, if_false, not_true_eq_false,
        not_false_eq_true, ite_true, ite_false] <;>
      rw [classify_loop_procskip_mem cls rest] <;>
      simp only [List.mem_append, List.mem_singleton, List.map_cons, List.mem_cons] <;>
      tauto

/-- Every fetched occurrence of an id whose device class is tracked queues
exactly one `Added`-or-`Updated` event for that id (classification is
per-occurrence). -/
theorem classify_loop_au_count (cls : List String) (id : String) :
    ∀ (data : List HubspaceDevice) (st : ClassifyState),
      (classify_loop cls st data).queue.countP (is_add_or_update_for id)
        = st.queue.countP (is_add_or_update_for id)
          + data.countP (fun d => d.id == id && decide (d.device_class ∈ cls))
  | [], st => by simp [classify_loop]
  | dev :: rest, st => by
    by_cases ht : dev.id ∈ st.tracked <;> by_cases hc : dev.device_class ∈ cls <;>
      by_cases hdid : (dev.id == id) = true <;>
      simp only [classify_loop, ht, hc, add_device, if_true, if_false, not_true_eq_false,
        not_false_eq_true, ite_true, ite_false] <;>
      rw [classify_loop_au_count cls id rest] <;>
      simp [List.countP_append, List.countP_cons, is_add_or_update_for, hdid, hc] <;>
      omega

/-- The classification loop never queues a `Deleted` event. -/
theorem classify_loop_deleted_count (cls : List String) (id : String) :
    ∀ (data : List HubspaceDevice) (st : ClassifyState),
      (classify_loop cls st data).queue.countP (is_deleted_for id)
        = st.queue.countP (is_deleted_for id)
  | [], st => by simp [classify_loop]
  | dev :: rest, st => by
    by_cases ht : dev.id ∈ st.tracked <;> by_cases hc : dev.device_class ∈ cls <;>
      simp only [classify_loop, ht, hc, add_device, if_true, if_false, not_true_eq_false,
        not_false_eq_true, ite_true, ite_false] <;>
      rw [classify_loop_deleted_count cls id rest] <;>
      simp [List.countP_append, List.countP_cons, is_deleted_for]

/-- Every fetched occurrence of an id whose device class is tracked queues
exactly one event carrying that id. -/
theorem classify_loop_id_count (cls : List String) (id : String) :
    ∀ (data : List HubspaceDevice) (st : ClassifyState),
      (classify_loop cls st data).queue.countP (is_event_for id)
        = st.queue.countP (is_event_for id)
          + data.countP (fun d => d.id == id && decide (d.device_class ∈ cls))
  | [], st => by simp [classify_loop]
  | dev :: rest, st => by
    by_cases ht : dev.id ∈ st.tracked <;> by_cases hc : dev.device_class ∈ cls <;>
      by_cases hdid : (dev.id == id) = true <;>
      simp only [classify_loop, ht, hc, add_device, if_true, if_false, not_true_eq_false,
        not_false_eq_true, ite_true, ite_false] <;>
      rw [classify_loop_id_count cls id rest] <;>
      simp [List.countP_append, List.countP_cons, is_event_for, hdid, hc] <;>
      omega

/-- An `Added` event for an id is queued exactly once, and only when the id is
not already tracked and the first fetched occurrence of the id has a tracked
device class (the immediate registry insertion suppresses re-adds). -/
theorem classify_loop_added_count (cls : List String) (id : String) :
    ∀ (data : List HubspaceDevice) (st : ClassifyState),
      (classify_loop cls st data).queue.countP (is_added_for id)
        = st.queue.countP (is_added_for id)
          + (match data.find? (fun d => d.id == id) with
             | none => 0
             | some d => if id ∈ st.tracked then 0
                 else if d.device_class ∈ cls then 1 else 0)
  | [], st => by simp [classify_loop]
  | dev :: rest, st => by
    by_cases hdid : (dev.id == id) = true
    · have hdev : dev.id = id := by simpa using hdid
      have hfind : (dev :: rest).find? (fun d => d.id == id) = some dev :=
        List.find?_cons_of_pos _ hdid
      rw [hfind]
      by_cases ht : dev.id ∈ st.tracked
      · have htid : id ∈ st.tracked := hdev ▸ ht
        by_cases hc : dev.device_class ∈ cls <;>
          simp only [classify_loop, ht, hc, add_device, if_true, if_false,
            not_true_eq_false, not_false_eq_true, ite_true, ite_false] <;>
          rw [classify_loop_added_count cls id rest] <;>
          cases hfr : rest.find? (fun d => d.id == id) <;>
          simp [List.countP_append, List.countP_cons, is_added_for, hdid, htid]
      · have htid : id ∉ st.tracked := fun hmem => ht (hdev ▸ hmem)
        have hmem' : id ∈ st.tracked ++ [dev.id] := by simp [hdev]
        by_cases hc : dev.device_class ∈ cls <;>
          simp only [classify_loop, ht, hc, add_device, if_true, if_false,
            not_true_eq_false, not_false_eq_true, ite_true, ite_false] <;>
          rw [classify_loop_added_count cls id rest] <;>
          cases hfr : rest.find? (fun d => d.id == id) <;>
          simp [List.countP_append, List.countP_cons, is_added_for, hdid, htid,
            hmem', hc]
    · have hdidf : (dev.id == id) = false := by simpa using hdid
      have hfind : (dev :: rest).find? (fun d => d.id == id)
          = rest.find? (fun d => d.id == id) := by
        simp [List.find?_cons, hdidf]
      rw [hfind]
      have hdevne : dev.id ≠ id := by simpa using hdid
      have hidne : id ≠ dev.id := fun h => hdevne h.symm
      by_cases ht : dev.id ∈ st.tracked <;> by_cases hc : dev.device_class ∈ cls <;>
        simp only [classify_loop, ht, hc, add_device, if_true, if_false,
          not_true_eq_false, not_false_eq_true, ite_true, ite_false] <;>
        rw [classify_loop_added_count cls id rest] <;>
        cases hfr : rest.find? (fun d => d.id == id) <;>
        by_cases htid : id ∈ st.tracked <;>
        simp [List.countP_append, List.countP_cons, is_added_for, hdid, htid, hidne]

/-- A sweep over ids that were all processed or skipped completes without a
deletion and without the `RuntimeError`. -/
theorem deletion_sweep_of_no_stale (ps : List String) :
    ∀ (iter tracked : List String) (queue : List HubSpaceEvent),
      (∀ x ∈ iter, x ∈ ps) →
      deletion_sweep ps tracked queue iter = (tracked, queue, false)
  | [], tracked, queue, _ => rfl
  | d :: rest, tracked, queue, h => by
    have hd : d ∈ ps := h d (List.mem_cons_self d rest)
    simp only [deletion_sweep]
    rw [if_neg (not_not_intro hd)]
    exact deletion_sweep_of_no_stale ps rest tracked queue
      (fun x hx => h x (List.mem_cons_of_mem d hx))

/-- A sweep that reaches a stale id queues one `Deleted` event for the first
stale id in iteration order, removes it, and dies with the `RuntimeError`. -/
theorem deletion_sweep_of_first_stale (ps : List String) :
    ∀ (iter tracked : List String) (queue : List HubSpaceEvent) (r0 : String),
      iter.find? (fun x => decide (x ∉ ps)) = some r0 →
      deletion_sweep ps tracked queue iter
        = (tracked.erase r0,
           queue ++ [{ type := EventType.resource_deleted, device_id := r0 }],
           true)
  | [], tracked, queue, r0, h => by simp at h
  | d :: rest, tracked, queue, r0, h => by
    by_cases hd : d ∈ ps
    · have hfind : rest.find? (fun x => decide (x ∉ ps)) = some r0 := by
        simpa [List.find?_cons, hd] using h
      simp only [deletion_sweep]
      rw [if_neg (not_not_intro hd)]
      exact deletion_sweep_of_first_stale ps rest tracked queue r0 hfind
    · have hd2 : (decide (d ∈ ps)) = false := by simp [hd]
      obtain rfl : d = r0 := by simpa [List.find?_cons, hd2] using h
      simp only [deletion_sweep]
      rw [if_pos hd]

/-- `find?` only depends on the predicate's values on the list. -/
theorem find?_congr_mem {α : Type} (p q : α → Bool) :
    ∀ (l : List α), (∀ x ∈ l, p x = q x) → l.find? p = l.find? q
  | [], _ => rfl
  | a :: l, h => by
    have ha := h a (List.mem_cons_self a l)
    cases hq : q a with
    | true => simp [List.find?_cons, ha, hq]
    | false =>
      simp only [List.find?_cons, ha, hq]
      exact find?_congr_mem p q l (fun x hx => h x (List.mem_cons_of_mem a hx))

/-- `find?` on an appended list searches the first part first. -/
theorem find?_append_cases {α : Type} (p : α → Bool) :
    ∀ (l₁ l₂ : List α),
      (l₁ ++ l₂).find? p = match l₁.find? p with
        | some a => some a
        | none => l₂.find? p
  | [], l₂ => rfl
  | a :: l₁, l₂ => by
    cases hp : p a with
    | true => simp [List.cons_append, List.find?_cons, hp]
    | false =>
      simp only [List.cons_append, List.find?_cons, hp]
      exact find?_append_cases p l₁ l₂

/-- One unfolding step of the classification loop. -/
theorem classify_loop_cons_eq (cls : List String) (st : ClassifyState)
    (dev : HubspaceDevice) (rest : List HubspaceDevice) :
    classify_loop cls st (dev :: rest)
      = classify_loop cls
          { tracked := if dev.id ∈ st.tracked then st.tracked
              else st.tracked ++ [dev.id]
            processed_ids := if dev.device_class ∈ cls then
              st.processed_ids ++ [dev.id] else st.processed_ids
            skipped_ids := if dev.device_class ∈ cls then st.skipped_ids
              else st.skipped_ids ++ [dev.id]
            queue := if dev.device_class ∈ cls then st.queue ++
              [{ type := if dev.id ∈ st.tracked then EventType.resource_updated
                   else EventType.resource_added,
                 device_id := dev.id, device := some dev }]
              else st.queue } rest := by
  by_cases ht : dev.id ∈ st.tracked <;> by_cases hc : dev.device_class ∈ cls <;>
    simp [classify_loop, ht, hc, add_device]

/-- The classification loop only appends to the registry: the prior registry
is a prefix of the new one, and everything appended is a fetched id. -/
theorem classify_loop_tracked_prefix (cls : List String) :
    ∀ (data : List HubspaceDevice) (st : ClassifyState),
      ∃ F, (classify_loop cls st data).tracked = st.tracked ++ F
        ∧ ∀ x ∈ F, x ∈ data.map HubspaceDevice.id
  | [], st => ⟨[], by simp [classify_loop], by simp⟩
  | dev :: rest, st => by
    rw [classify_loop_cons_eq]
    obtain ⟨F, hF, hm⟩ := classify_loop_tracked_prefix cls rest
      { tracked := if dev.id ∈ st.tracked then st.tracked
          else st.tracked ++ [dev.id]
        processed_ids := if dev.device_class ∈ cls then
          st.processed_ids ++ [dev.id] else st.processed_ids
        skipped_ids := if dev.device_class ∈ cls then st.skipped_ids
          else st.skipped_ids ++ [dev.id]
        queue := if dev.device_class ∈ cls then st.queue ++
          [{ type := if dev.id ∈ st.tracked then EventType.resource_updated
               else EventType.resource_added,
             device_id := dev.id, device := some dev }]
          else st.queue }
    by_cases ht : dev.id ∈ st.tracked
    · refine ⟨F, ?_, fun x hx => ?_⟩
      · rw [hF]
        simp [ht]
      · simp only [List.map_cons, List.mem_cons]
        exact Or.inr (hm x hx)
    · refine ⟨dev.id :: F, ?_, fun x hx => ?_⟩
      · rw [hF]
        simp [ht]
      · rcases List.mem_cons.mp hx with rfl | hx'
        · simp
        · simp only [List.map_cons, List.mem_cons]
          exact Or.inr (hm x hx')

/-- The first stale id of the post-classification registry, with respect to
the processed/skipped ids, is the first id of the prior registry missing from
the fetched ids (everything the loop appended was fetched, hence never
stale). -/
theorem find_stale_eq (ps ids R F : List String)
    (hpp : ∀ x, x ∈ ps ↔ x ∈ ids) (hm : ∀ x ∈ F, x ∈ ids) :
    (R ++ F).find? (fun x => decide (x ∉ ps))
      = R.find? (fun r => decide (r ∉ ids)) := by
  rw [find?_append_cases]
  have hFnone : F.find? (fun x => decide (x ∉ ps)) = none := by
    rw [List.find?_eq_none]
    intro x hx
    simp [(hpp x).mpr (hm x hx)]
  have hRc : R.find? (fun x => decide (x ∉ ps))
      = R.find? (fun r => decide (r ∉ ids)) :=
    find?_congr_mem _ _ R (fun x _ => by simp [hpp x])
  rw [hRc]
  cases hR0 : R.find? (fun r => decide (r ∉ ids)) with
  | none => simpa using hFnone
  | some r0 => rfl

/-- The classify accumulator a poll starts from: prior registry, nothing
processed, nothing skipped, empty queue. -/
def classify_state_init (R : List String) : ClassifyState :=
  { tracked := R, processed_ids := [], skipped_ids := [], queue := [] }

/-- `process_poll` unfolded into its two phases. -/
theorem process_poll_eq (R cls : List String) (data : List HubspaceDevice) :
    process_poll R cls data
      = { tracked := (deletion_sweep
            ((classify_loop cls (classify_state_init R) data).processed_ids
              ++ (classify_loop cls (classify_state_init R) data).skipped_ids)
            (classify_loop cls (classify_state_init R) data).tracked
            (classify_loop cls (classify_state_init R) data).queue
            (classify_loop cls (classify_state_init R) data).tracked).1
          queue := (deletion_sweep
            ((classify_loop cls (classify_state_init R) data).processed_ids
              ++ (classify_loop cls (classify_state_init R) data).skipped_ids)
            (classify_loop cls (classify_state_init R) data).tracked
            (classify_loop cls (classify_state_init R) data).queue
            (classify_loop cls (classify_state_init R) data).tracked).2.1
          crashed := (deletion_sweep
            ((classify_loop cls (classify_state_init R) data).processed_ids
              ++ (classify_loop cls (classify_state_init R) data).skipped_ids)
            (classify_loop cls (classify_state_init R) data).tracked
            (classify_loop cls (classify_state_init R) data).queue
            (classify_loop cls (classify_state_init R) data).tracked).2.2 } := rfl

/-- The two possible outcomes of a poll's deletion sweep: either no prior
registry id is missing from the fetch and the sweep completes untouched, or
the first missing prior id (in insertion order) is queued as `Deleted`,
removed, and the sweep dies with the `RuntimeError`. -/
theorem process_poll_sweep_cases (R cls : List String) (data : List HubspaceDevice) :
    (R.find? (fun r => decide (r ∉ data.map HubspaceDevice.id)) = none
      ∧ (process_poll R cls data).tracked
          = (classify_loop cls (classify_state_init R) data).tracked
      ∧ (process_poll R cls data).queue
          = (classify_loop cls (classify_state_init R) data).queue
      ∧ (process_poll R cls data).crashed = false)
    ∨ (∃ r0, R.find? (fun r => decide (r ∉ data.map HubspaceDevice.id)) = some r0
      ∧ (process_poll R cls data).tracked
          = (classify_loop cls (classify_state_init R) data).tracked.erase r0
      ∧ (process_poll R cls data).queue
          = (classify_loop cls (classify_state_init R) data).queue
            ++ [{ type := EventType.resource_deleted, device_id := r0 }]
      ∧ (process_poll R cls data).crashed = true) := by
  have hpsmem : ∀ x, x ∈ (classify_loop cls (classify_state_init R) data).processed_ids
        ++ (classify_loop cls (classify_state_init R) data).skipped_ids
      ↔ x ∈ data.map HubspaceDevice.id := fun x => by
    simpa [classify_state_init] using
      classify_loop_procskip_mem cls data (classify_state_init R) x
  obtain ⟨F, hF, hm⟩ := classify_loop_tracked_prefix cls data (classify_state_init R)
  have hFR : (classify_loop cls (classify_state_init R) data).tracked = R ++ F := by
    simpa [classify_state_init] using hF
  have hfind : (classify_loop cls (classify_state_init R) data).tracked.find?
        (fun x => decide (x ∉ (classify_loop cls (classify_state_init R) data).processed_ids
          ++ (classify_loop cls (classify_state_init R) data).skipped_ids))
      = R.find? (fun r => decide (r ∉ data.map HubspaceDevice.id)) := by
    rw [hFR]
    exact find_stale_eq _ _ R F hpsmem hm
  cases hR0 : R.find? (fun r => decide (r ∉ data.map HubspaceDevice.id)) with
  | none =>
    left
    have hall : ∀ x ∈ (classify_loop cls (classify_state_init R) data).tracked,
        x ∈ (classify_loop cls (classify_state_init R) data).processed_ids
          ++ (classify_loop cls (classify_state_init R) data).skipped_ids := by
      intro x hx
      have h1 := List.find?_eq_none.mp (hfind.trans hR0) x hx
      rw [decide_eq_true_eq] at h1
      exact not_not.mp h1
    have hsw := deletion_sweep_of_no_stale
      ((classify_loop cls (classify_state_init R) data).processed_ids
        ++ (classify_loop cls (classify_state_init R) data).skipped_ids)
      (classify_loop cls (classify_state_init R) data).tracked
      (classify_loop cls (classify_state_init R) data).tracked
      (classify_loop cls (classify_state_init R) data).queue hall
    refine ⟨rfl, ?_, ?_, ?_⟩ <;>
      rw [process_poll_eq] <;> rw [hsw]
  | some r0 =>
    right
    have hsw := deletion_sweep_of_first_stale
      ((classify_loop cls (classify_state_init R) data).processed_ids
        ++ (classify_loop cls (classify_state_init R) data).skipped_ids)
      (classify_loop cls (classify_state_init R) data).tracked
      (classify_loop cls (classify_state_init R) data).tracked
      (classify_loop cls (classify_state_init R) data).queue r0
      (hfind.trans hR0)
    refine ⟨r0, rfl, ?_, ?_, ?_⟩ <;>
      rw [process_poll_eq] <;> rw [hsw]

/-- Claim C2 (amended): for a poll with fetched list `S` and duplicate-free
prior registry `R`, (a) each occurrence in `S` whose device class is tracked
is classified exactly once — so a duplicated fresh id yields one `Added` plus
one `Updated` event, not a single classification; (b) an `Added` event for an
id is queued exactly once, and only when the id is not in `R` and its first
occurrence in `S` has a tracked class; (c) when no id of `R` is missing from
`S`, no `Deleted` event is queued and the registry afterwards holds `R` plus
every fetched id; when at least one id of `R` is missing, only the first such
id (in the registry's iteration order, modelled as insertion order) is
classified `Deleted` and removed — the mutation of `_known_devs` during
iteration then raises an uncaught `RuntimeError` that kills the reader task,
so the remaining missing ids are neither classified nor removed. -/
theorem claim_C2_classification_accounting (R cls : List String)
    (data : List HubspaceDevice) (hR : R.Nodup) :
    (∀ id, (process_poll R cls data).queue.countP (is_add_or_update_for id)
        = data.countP (fun d => d.id == id && decide (d.device_class ∈ cls)))
    ∧ (∀ id, (process_poll R cls data).queue.countP (is_added_for id)
        = match data.find? (fun d => d.id == id) with
          | none => 0
          | some d => if id ∈ R then 0 else if d.device_class ∈ cls then 1 else 0)
    ∧ (match R.find? (fun r => decide (r ∉ data.map HubspaceDevice.id)) with
       | none =>
         (∀ id, (process_poll R cls data).queue.countP (is_deleted_for id) = 0)
         ∧ (process_poll R cls data).crashed = false
         ∧ ∀ x, x ∈ (process_poll R cls data).tracked
             ↔ x ∈ R ∨ x ∈ data.map HubspaceDevice.id
       | some r0 =>
         (∀ id, (process_poll R cls data).queue.countP (is_deleted_for id)
             = if id = r0 then 1 else 0)
         ∧ (process_poll R cls data).crashed = true
         ∧ ∀ x, x ∈ (process_poll R cls data).tracked
             ↔ (x ∈ R ∨ x ∈ data.map HubspaceDevice.id) ∧ x ≠ r0) := by
  have hnodup : (classify_loop cls (classify_state_init R) data).tracked.Nodup :=
    classify_loop_tracked_nodup cls data _ (by simpa [classify_state_init] using hR)
  have htrmem : ∀ x, x ∈ (classify_loop cls (classify_state_init R) data).tracked
      ↔ x ∈ R ∨ x ∈ data.map HubspaceDevice.id := fun x => by
    simpa [classify_state_init] using
      classify_loop_tracked_mem cls data (classify_state_init R) x
  have hau : ∀ id, (classify_loop cls (classify_state_init R) data).queue.countP
      (is_add_or_update_for id)
      = data.countP (fun d => d.id == id && decide (d.device_class ∈ cls)) := fun id => by
    simpa [classify_state_init] using
      classify_loop_au_count cls id data (classify_state_init R)
  have hadd : ∀ id, (classify_loop cls (classify_state_init R) data).queue.countP
      (is_added_for id)
      = match data.find? (fun d => d.id == id) with
        | none => 0
        | some d => if id ∈ R then 0 else if d.device_class ∈ cls then 1 else 0 := fun id => by
    simpa [classify_state_init] using
      classify_loop_added_count cls id data (classify_state_init R)
  have hdel : ∀ id, (classify_loop cls (classify_state_init R) data).queue.countP
      (is_deleted_for id) = 0 := fun id => by
    simpa [classify_state_init] using
      classify_loop_deleted_count cls id data (classify_state_init R)
  rcases process_poll_sweep_cases R cls data with
    ⟨hR0, htr, hq, hcr⟩ | ⟨r0, hR0, htr, hq, hcr⟩
  · refine ⟨fun id => by rw [hq]; exact hau id,
      fun id => by rw [hq]; exact hadd id, ?_⟩
    rw [hR0]
    exact ⟨fun id => by rw [hq]; exact hdel id, hcr,
      fun x => by rw [htr]; exact htrmem x⟩
  · refine ⟨?_, ?_, ?_⟩
    · intro id
      rw [hq, List.countP_append, hau id]
      simp [is_add_or_update_for]
    · intro id
      rw [hq, List.countP_append, hadd id]
      cases data.find? (fun d => d.id == id) <;>
        simp [is_added_for]
    · rw [hR0]
      refine ⟨?_, hcr, ?_⟩
      · intro id
        rw [hq, List.countP_append, hdel id]
        by_cases hid : id = r0
        · subst hid
          simp [is_deleted_for]
        · have hne : (r0 == id) = false := beq_eq_false_iff_ne.mpr fun h => hid h.symm
          simp [is_deleted_for, hne, hid]
      · intro x
        rw [htr, List.Nodup.mem_erase_iff hnodup, htrmem x]
        constructor
        · rintro ⟨hne, hmem⟩
          exact ⟨hmem, hne⟩
        · rintro ⟨hmem, hne⟩
          exact ⟨hne, hmem⟩

/-- Witness for claim C2 at a concrete input: registry `{"X"}`, the same fresh
light device fetched twice — two classification events for the duplicated id,
the stale id `X` is classified `Deleted` once, and the poll dies with the
`RuntimeError`. -/
theorem claim_C2_witness :
    ((process_poll ["X"] ["light"] [light_device, light_device]).queue.countP
        (is_add_or_update_for "L1") = 2)
    ∧ ((process_poll ["X"] ["light"] [light_device, light_device]).queue.countP
        (is_deleted_for "X") = 1)
    ∧ (process_poll ["X"] ["light"] [light_device, light_device]).crashed = true
    ∧ ("L1" ∈ (process_poll ["X"] ["light"] [light_device, light_device]).tracked
        ↔ ("L1" ∈ ["X"]
            ∨ "L1" ∈ [light_device, light_device].map HubspaceDevice.id)
          ∧ "L1" ≠ "X") := by
  have h := claim_C2_classification_accounting ["X"] ["light"]
    [light_device, light_device] (by decide)
  have hf : (["X"] : List String).find?
      (fun r => decide (r ∉ [light_device, light_device].map HubspaceDevice.id))
      = some "X" := by decide
  rw [hf] at h
  refine ⟨?_, ?_, h.2.2.2.1, h.2.2.2.2 "L1"⟩
  · have h1 := h.1 "L1"
    simpa [light_device] using h1
  · have h2 := h.2.2.1 "X"
    simpa using h2

/-- Claim C5 (amended): a fetched device whose id is not in the registry is
inserted into the registry before the category check; when its category is
untracked it is skipped for event purposes — no event at all is queued for its
id — but its registry entry remains after the poll. -/
theorem claim_C5_untracked_class_inserted (R cls : List String) (d : HubspaceDevice)
    (hR : R.Nodup) (hfresh : d.id ∉ R) (hcls : d.device_class ∉ cls) :
    d.id ∈ (process_poll R cls [d]).tracked
    ∧ (process_poll R cls [d]).queue.countP (is_event_for d.id) = 0 := by
  have hnodup : (classify_loop cls (classify_state_init R) [d]).tracked.Nodup :=
    classify_loop_tracked_nodup cls [d] _ (by simpa [classify_state_init] using hR)
  have htrmem : ∀ x, x ∈ (classify_loop cls (classify_state_init R) [d]).tracked
      ↔ x ∈ R ∨ x ∈ [d].map HubspaceDevice.id := fun x => by
    simpa [classify_state_init] using
      classify_loop_tracked_mem cls [d] (classify_state_init R) x
  have hq0 : (classify_loop cls (classify_state_init R) [d]).queue.countP
      (is_event_for d.id) = 0 := by
    have h1 := classify_loop_id_count cls d.id [d] (classify_state_init R)
    simpa [classify_state_init, List.countP_cons, hcls] using h1
  rcases process_poll_sweep_cases R cls [d] with
    ⟨hR0, htr, hq, hcr⟩ | ⟨r0, hR0, htr, hq, hcr⟩
  · constructor
    · rw [htr]
      exact (htrmem d.id).mpr (Or.inr (by simp))
    · rw [hq]
      exact hq0
  · have hr0R : r0 ∈ R := List.mem_of_find?_eq_some hR0
    have hr0ne : r0 ≠ d.id := fun h => hfresh (h ▸ hr0R)
    constructor
    · rw [htr, List.Nodup.mem_erase_iff hnodup]
      exact ⟨fun h => hr0ne h.symm, (htrmem d.id).mpr (Or.inr (by simp))⟩
    · rw [hq, List.countP_append, hq0]
      have hne : (r0 == d.id) = false := beq_eq_false_iff_ne.mpr hr0ne
      simp [is_event_for, hne]

/-- Witness for claim C5 at a concrete input: with registry `{"X"}` and
tracked class `light`, a fetched fresh fan device ends up in the registry with
no event queued for it. -/
theorem claim_C5_witness :
    plain_fan_device.id ∈ (process_poll ["X"] ["light"] [plain_fan_device]).tracked
    ∧ (process_poll ["X"] ["light"] [plain_fan_device]).queue.countP
        (is_event_for plain_fan_device.id) = 0 :=
  claim_C5_untracked_class_inserted ["X"] ["light"] plain_fan_device
    (by decide) (by decide) (by decide)

/-! ## Change detection of `update_elem` (claim C6) -/

/-- Modelled from the spec for the refinement comparison: the feature name a
state's function class addresses in the fan model (`None` when the update loop
ignores the state). -/
def spec_state_feature (state : HubspaceState) : Option String :=
  if state.functionClass == "power" then some "on"
  else if state.functionClass == "fan-speed" then some "speed"
  else if state.functionClass == "fan-reverse" then some "direction"
  else if state.functionClass == "toggle"
      && instance_in_known_presets state.functionInstance then some "preset"
  else if state.functionClass == "available" then some "available"
  else none

/-- Modelled from the spec for the refinement comparison: the state's decoded
value differs from the model's current value for the addressed feature
(`false` when the state is ignored, the feature is absent, or decoding
fails). -/
def spec_decoded_differs (cur : Fan) (state : HubspaceState) : Bool :=
  if state.functionClass == "power" then
    match cur.«on» with
    | some o => o.«on» != state.value.eqStr "on"
    | none => false
  else if state.functionClass == "fan-speed" then
    match cur.speed with
    | some sp =>
      match hs_value_to_percentage sp.speeds state.value with
      | Except.ok v => sp.speed != v
      | Except.error _ => false
    | none => false
  else if state.functionClass == "fan-reverse" then
    match cur.direction with
    | some d => d.forward != state.value.eqStr "forward"
    | none => false
  else if state.functionClass == "toggle"
      && instance_in_known_presets state.functionInstance then
    match cur.preset with
    | some p => p.enabled != state.value.eqStr "enabled"
    | none => false
  else if state.functionClass == "available" then
    cur.available != state.value
  else false

/-- Two models agree on the named feature. -/
def feature_agrees (a b : Fan) : String → Prop
  | "on" => a.«on» = b.«on»
  | "speed" => a.speed = b.speed
  | "direction" => a.direction = b.direction
  | "preset" => a.preset = b.preset
  | "available" => a.available = b.available
  | _ => True

theorem feature_agrees_refl (a : Fan) (k : String) : feature_agrees a a k := by
  unfold feature_agrees
  split <;> first | rfl | trivial

theorem feature_agrees_trans (a b c : Fan) (k : String)
    (h1 : feature_agrees a b k) (h2 : feature_agrees b c k) : feature_agrees a c k := by
  unfold feature_agrees at h1 h2 ⊢
  split <;> simp_all

/-- Membership in the embedded `set.add`. -/
theorem mem_set_add (s : List String) (y x : String) :
    x ∈ set_add s y ↔ x ∈ s ∨ x = y := by
  unfold set_add
  split
  · rename_i hy
    constructor
    · exact Or.inl
    · rintro (hx | rfl)
      · exact hx
      · exact hy
  · simp

/-- A successful `update_elem_step` extends `updated_keys` with the state's
feature name exactly when the decoded value differs from the current model. -/
theorem update_elem_step_keys (cur : Fan) (keys : List String) (st : HubspaceState)
    (cur' : Fan) (keys' : List String)
    (h : update_elem_step cur keys st = Except.ok (cur', keys')) :
    keys' = match spec_state_feature st with
      | some k => if spec_decoded_differs cur st = true then set_add keys k else keys
      | none => keys := by
  simp only [update_elem_step] at h
  repeat' split at h
  all_goals simp only [Except.ok.injEq, Prod.mk.injEq, reduceCtorEq] at h
  all_goals obtain ⟨h1, h2⟩ := h
  all_goals subst h2
  all_goals simp_all [spec_state_feature, spec_decoded_differs]
  all_goals try (split <;> simp_all)

/-- A successful `update_elem_step` touches at most the state's own feature:
the new model agrees with the old one on every other feature. -/
theorem update_elem_step_agrees (cur : Fan) (keys : List String) (st : HubspaceState)
    (cur' : Fan) (keys' : List String)
    (h : update_elem_step cur keys st = Except.ok (cur', keys')) :
    ∀ k, spec_state_feature st ≠ some k → feature_agrees cur' cur k := by
  simp only [update_elem_step] at h
  repeat' split at h
  all_goals simp only [Except.ok.injEq, Prod.mk.injEq, reduceCtorEq] at h
  all_goals obtain ⟨h1, h2⟩ := h
  all_goals subst h1
  all_goals intro k hk
  all_goals simp_all [spec_state_feature]
  all_goals unfold feature_agrees
  all_goals split <;> simp_all

/-- Whether a state's decoded value differs only depends on the model's value
for the feature the state addresses. -/
theorem spec_decoded_differs_congr (a b : Fan) (st : HubspaceState) (k : String)
    (hfeat : spec_state_feature st = some k) (hagree : feature_agrees a b k) :
    spec_decoded_differs a st = spec_decoded_differs b st := by
  by_cases h1 : (st.functionClass == "power") = true
  · simp only [spec_state_feature, h1, if_true] at hfeat
    obtain rfl : "on" = k := by simpa using hfeat
    have hab : a.«on» = b.«on» := by simpa [feature_agrees] using hagree
    simp [spec_decoded_differs, h1, hab]
  · by_cases h2 : (st.functionClass == "fan-speed") = true
    · simp only [spec_state_feature, h1, h2, if_true] at hfeat
      obtain rfl : "speed" = k := by simpa using hfeat
      have hab : a.speed = b.speed := by simpa [feature_agrees] using hagree
      simp [spec_decoded_differs, h1, h2, hab]
    · by_cases h3 : (st.functionClass == "fan-reverse") = true
      · simp only [spec_state_feature, h1, h2, h3, if_true] at hfeat
        obtain rfl : "direction" = k := by simpa using hfeat
        have hab : a.direction = b.direction := by simpa [feature_agrees] using hagree
        simp [spec_decoded_differs, h1, h2, h3, hab]
      · by_cases h4 : (st.functionClass == "toggle"
            && instance_in_known_presets st.functionInstance) = true
        · simp only [spec_state_feature, h1, h2, h3, h4, if_true] at hfeat
          obtain rfl : "preset" = k := by simpa using hfeat
          have hab : a.preset = b.preset := by simpa [feature_agrees] using hagree
          simp [spec_decoded_differs, h1, h2, h3, h4, hab]
        · by_cases h5 : (st.functionClass == "available") = true
          · simp only [spec_state_feature, h1, h2, h3, h4, h5, if_true] at hfeat
            obtain rfl : "available" = k := by simpa using hfeat
            have hab : a.available = b.available := by simpa [feature_agrees] using hagree
            simp [spec_decoded_differs, h1, h2, h3, h4, h5, hab]
          · simp only [spec_state_feature, h1, h2, h3, h4, h5] at hfeat
            simp at hfeat

/-- A state whose decoded value differs addresses some feature. -/
theorem spec_state_feature_of_differs (cur : Fan) (st : HubspaceState)
    (h : spec_decoded_differs cur st = true) : ∃ k, spec_state_feature st = some k := by
  by_cases h1 : (st.functionClass == "power") = true
  · exact ⟨"on", by simp [spec_state_feature, h1]⟩
  · by_cases h2 : (st.functionClass == "fan-speed") = true
    · exact ⟨"speed", by simp [spec_state_feature, h1, h2]⟩
    · by_cases h3 : (st.functionClass == "fan-reverse") = true
      · exact ⟨"direction", by simp [spec_state_feature, h1, h2, h3]⟩
      · by_cases h4 : (st.functionClass == "toggle"
            && instance_in_known_presets st.functionInstance) = true
        · exact ⟨"preset", by simp [spec_state_feature, h1, h2, h3, h4]⟩
        · by_cases h5 : (st.functionClass == "available") = true
          · exact ⟨"available", by simp [spec_state_feature, h1, h2, h3, h4, h5]⟩
          · exfalso
            simp [spec_decoded_differs, h1, h2, h3, h4, h5] at h

/-- Characterization of the update loop's `updated_keys`: under one state per
feature, a feature name is collected exactly when some state addresses it and
its decoded value differs from the model the loop started from. -/
theorem update_elem_loop_keys_characterization (cur₀ : Fan) :
    ∀ (states : List HubspaceState) (cur : Fan) (acc : List String),
      (states.filterMap spec_state_feature).Nodup →
      (∀ k, (∃ st ∈ states, spec_state_feature st = some k) → feature_agrees cur cur₀ k) →
      ∀ (fan' : Fan) (keys : List String),
        update_elem_loop cur acc states = Except.ok (fan', keys) →
        ∀ k, k ∈ keys ↔ k ∈ acc
            ∨ ∃ st ∈ states, spec_state_feature st = some k
                ∧ spec_decoded_differs cur₀ st = true
  | [], cur, acc, _, _, fan', keys, h, k => by
    simp only [update_elem_loop, Except.ok.injEq, Prod.mk.injEq] at h
    obtain ⟨-, rfl⟩ := h
    simp
  | st0 :: rest, cur, acc, hnd, hagree, fan', keys, h, k => by
    cases hstep : update_elem_step cur acc st0 with
    | error e =>
      simp only [update_elem_loop, hstep] at h
      exact absurd h (by simp)
    | ok p =>
      obtain ⟨cur1, keys1⟩ := p
      simp only [update_elem_loop, hstep] at h
      have hkeys1 := update_elem_step_keys cur acc st0 cur1 keys1 hstep
      have hagrees_step := update_elem_step_agrees cur acc st0 cur1 keys1 hstep
      cases hfeat : spec_state_feature st0 with
      | none =>
        have hkeys1' : keys1 = acc := by rw [hkeys1, hfeat]
        have hndr : (rest.filterMap spec_state_feature).Nodup := by
          have hfc : (st0 :: rest).filterMap spec_state_feature
              = rest.filterMap spec_state_feature := by
            simp [List.filterMap_cons, hfeat]
          rwa [hfc] at hnd
        have hagree1 : ∀ k', (∃ st ∈ rest, spec_state_feature st = some k')
            → feature_agrees cur1 cur₀ k' := by
          intro k' hex
          obtain ⟨st, hst, hf⟩ := hex
          refine feature_agrees_trans _ _ _ _ (hagrees_step k' ?_)
            (hagree k' ⟨st, List.mem_cons_of_mem _ hst, hf⟩)
          rw [hfeat]
          simp
        have hih := update_elem_loop_keys_characterization cur₀ rest cur1 keys1 hndr
          hagree1 fan' keys h k
        rw [hih, hkeys1']
        constructor
        · rintro (ha | ⟨st, hst, hf, hd⟩)
          · exact Or.inl ha
          · exact Or.inr ⟨st, List.mem_cons_of_mem _ hst, hf, hd⟩
        · rintro (ha | ⟨st, hst, hf, hd⟩)
          · exact Or.inl ha
          · rcases List.mem_cons.mp hst with rfl | hst'
            · rw [hfeat] at hf
              cases hf
            · exact Or.inr ⟨st, hst', hf, hd⟩
      | some k0 =>
        have hkeys1' : keys1 = if spec_decoded_differs cur st0 = true
            then set_add acc k0 else acc := by
          rw [hkeys1, hfeat]
        have hfc : (st0 :: rest).filterMap spec_state_feature
            = k0 :: rest.filterMap spec_state_feature := by
          simp [List.filterMap_cons, hfeat]
        have hk0notin : k0 ∉ rest.filterMap spec_state_feature := by
          rw [hfc] at hnd
          exact (List.nodup_cons.mp hnd).1
        have hnorest : ∀ st ∈ rest, spec_state_feature st ≠ some k0 := by
          intro st hst hcon
          exact hk0notin (List.mem_filterMap.mpr ⟨st, hst, hcon⟩)
        have hndr : (rest.filterMap spec_state_feature).Nodup := by
          rw [hfc] at hnd
          exact (List.nodup_cons.mp hnd).2
        have hagree1 : ∀ k', (∃ st ∈ rest, spec_state_feature st = some k')
            → feature_agrees cur1 cur₀ k' := by
          intro k' hex
          obtain ⟨st, hst, hf⟩ := hex
          have hne : spec_state_feature st0 ≠ some k' := by
            rw [hfeat]
            intro hcon
            obtain rfl : k0 = k' := by injection hcon
            exact hnorest st hst hf
          exact feature_agrees_trans _ _ _ _ (hagrees_step k' hne)
            (hagree k' ⟨st, List.mem_cons_of_mem _ hst, hf⟩)
        have hdif : spec_decoded_differs cur st0 = spec_decoded_differs cur₀ st0 :=
          spec_decoded_differs_congr cur cur₀ st0 k0 hfeat
            (hagree k0 ⟨st0, List.mem_cons_self _ _, hfeat⟩)
        have hih := update_elem_loop_keys_characterization cur₀ rest cur1 keys1 hndr
          hagree1 fan' keys h k
        rw [hih, hkeys1', hdif]
        by_cases hd : spec_decoded_differs cur₀ st0 = true
        · rw [if_pos hd]
          constructor
          · rintro (ha | ⟨st, hst, hf, hdd⟩)
            · rcases (mem_set_add acc k0 k).mp ha with ha' | rfl
              · exact Or.inl ha'
              · exact Or.inr ⟨st0, List.mem_cons_self _ _, hfeat, hd⟩
            · exact Or.inr ⟨st, List.mem_cons_of_mem _ hst, hf, hdd⟩
          · rintro (ha | ⟨st, hst, hf, hdd⟩)
            · exact Or.inl ((mem_set_add acc k0 k).mpr (Or.inl ha))
            · rcases List.mem_cons.mp hst with rfl | hst'
              · rw [hfeat] at hf
                obtain rfl : k0 = k := by injection hf
                exact Or.inl ((mem_set_add acc k0 k0).mpr (Or.inr rfl))
              · exact Or.inr ⟨st, hst', hf, hdd⟩
        · rw [if_neg hd]
          constructor
          · rintro (ha | ⟨st, hst, hf, hdd⟩)
            · exact Or.inl ha
            · exact Or.inr ⟨st, List.mem_cons_of_mem _ hst, hf, hdd⟩
          · rintro (ha | ⟨st, hst, hf, hdd⟩)
            · exact Or.inl ha
            · rcases List.mem_cons.mp hst with rfl | hst'
              · rw [hfeat] at hf
                obtain rfl : k0 = k := by injection hf
                exact absurd hdd hd
              · exact Or.inr ⟨st, hst', hf, hdd⟩

/-- Claim C6 (amended): when the snapshot carries at most one state per
feature, `update_elem` returns the empty set iff every tracked function-class
value decodes equal to the current model, and in general returns exactly the
feature names whose decoded value differs.  In the concrete `speed-4-25` →
`speed-4-75` scenario it returns `{"speed"}` — but the model's percentage
becomes 100, not 75, because the speeds list is sorted lexicographically with
`speed-4-100` first. -/
theorem claim_C6_update_change_detection :
    (∀ (items : FanItems) (hs_device : HubspaceDevice) (cur : Fan)
        (items' : FanItems) (keys : List String),
        get_device items hs_device.id = Except.ok cur →
        (hs_device.states.filterMap spec_state_feature).Nodup →
        update_elem items hs_device = Except.ok (items', keys) →
        ((∀ k, k ∈ keys ↔ ∃ st ∈ hs_device.states,
            spec_state_feature st = some k ∧ spec_decoded_differs cur st = true)
          ∧ (keys = [] ↔ ∀ st ∈ hs_device.states, spec_decoded_differs cur st = false)))
    ∧ (update_elem [("fan-1", fan_model_25)] fan_device_75
        = Except.ok ([("fan-1", fan_model_75)], ["speed"])
      ∧ fan_model_75.speed.map SpeedFeature.speed = some 100) := by
  constructor
  · intro items hs_device cur items' keys hget hnd hupd
    simp only [update_elem, hget] at hupd
    cases hloop : update_elem_loop cur [] hs_device.states with
    | error e =>
      simp [hloop] at hupd
    | ok q =>
      obtain ⟨fan', keys0⟩ := q
      simp only [hloop, Except.ok.injEq, Prod.mk.injEq] at hupd
      obtain ⟨-, rfl⟩ := hupd
      have hchar := update_elem_loop_keys_characterization cur hs_device.states cur []
        hnd (fun k _ => feature_agrees_refl cur k) fan' keys0 hloop
      have hmem : ∀ k, k ∈ keys0 ↔ ∃ st ∈ hs_device.states,
          spec_state_feature st = some k ∧ spec_decoded_differs cur st = true := by
        intro k
        rw [hchar k]
        simp
      refine ⟨hmem, ?_, ?_⟩
      · intro h0 st hst
        by_contra hne
        have hd : spec_decoded_differs cur st = true := by
          cases hb : spec_decoded_differs cur st
          · exact absurd hb hne
          · rfl
        obtain ⟨kk, hkk⟩ := spec_state_feature_of_differs cur st hd
        have : kk ∈ keys0 := (hmem kk).mpr ⟨st, hst, hkk, hd⟩
        rw [h0] at this
        exact absurd this (by simp)
      · intro hall
        rw [List.eq_nil_iff_forall_not_mem]
        intro k hk
        obtain ⟨st, hst, -, hd⟩ := (hmem k).mp hk
        rw [hall st hst] at hd
        exact absurd hd (by simp)
  · exact ⟨by decide, rfl⟩

/-- Witness for claim C6 at a concrete input: updating the `speed-4-25` model
with the `speed-4-75` snapshot collects exactly the `"speed"` feature. -/
theorem claim_C6_witness :
    ("speed" ∈ (["speed"] : List String) ↔ ∃ st ∈ fan_device_75.states,
        spec_state_feature st = some "speed"
          ∧ spec_decoded_differs fan_model_25 st = true)
    ∧ ((["speed"] : List String) = [] ↔ ∀ st ∈ fan_device_75.states,
        spec_decoded_differs fan_model_25 st = false) :=
  ⟨((claim_C6_update_change_detection.1 [("fan-1", fan_model_25)] fan_device_75
      fan_model_25 [("fan-1", fan_model_75)] ["speed"] rfl (by decide) (by decide)).1
      "speed"),
   ((claim_C6_update_change_detection.1 [("fan-1", fan_model_25)] fan_device_75
      fan_model_25 [("fan-1", fan_model_75)] ["speed"] rfl (by decide) (by decide)).2)⟩
